import Mathlib

/-! Layout primitives of rMlib (`libs/rMlib/include/UI/Layout.h`).

A shallow embedding of the seven single-child layout primitives (Center, Padding,
CircularBorder, Border, Sized, Cleared, Positioned).

* C++ `int` is embedded as `Int`.  Signed overflow is undefined behaviour in C++; the
  subtraction of Positioned's layout, which meets the largest `int` as the unbounded
  maximum, is embedded with its 32-bit wrap (`intSub`), the other arithmetic is exact.
* A render object is a record; a member function that mutates `*this` returns the new
  record.  The child render object (template parameter `Child`) is a state of an
  arbitrary type `σ` together with a record `ChildOps` of the member functions the
  primitives call on it.
* `Canvas` is the sequence of operations it has received.
* Declarations of `UI/RenderObject.h` and `UI/Widget.h` are not part of the sources at
  hand; what the primitives use of them is modelled from the specification and marked
  as such.
-/

namespace rmlib

/-! ## Geometry -/

/-- Modelled from the spec: `Point` of the absent `Canvas.h`: "{x, y: integers}". -/
structure Point where
  x : Int
  y : Int
deriving DecidableEq, Repr

/-- Modelled from the spec: `Point` "supports translation (+)". -/
instance : Add Point := ⟨fun a b => ⟨a.x + b.x, a.y + b.y⟩⟩

/-- Modelled from the spec: `Size` of the absent `Canvas.h`: "{width, height}", compared by
value. -/
structure Size where
  width : Int
  height : Int
deriving DecidableEq, Repr

/-- Modelled from the spec: `Size::toPoint` of the absent `Canvas.h`, the point with the
same two components. -/
def Size.toPoint (s : Size) : Point := ⟨s.width, s.height⟩

/-- Modelled from the spec: `Rect` of the absent `Canvas.h`: "{topLeft, bottomRight: Point}". -/
structure Rect where
  topLeft : Point
  bottomRight : Point
deriving DecidableEq, Repr

/-- Modelled from the spec: `Rect::width` of the absent `Canvas.h` ("`width()/height()`
derived"), the horizontal distance between the two corners. -/
def Rect.width (r : Rect) : Int := r.bottomRight.x - r.topLeft.x

/-- Modelled from the spec: `Rect::height` of the absent `Canvas.h` ("`width()/height()`
derived"), the vertical distance between the two corners. -/
def Rect.height (r : Rect) : Int := r.bottomRight.y - r.topLeft.y

/-- Modelled from the spec: `Insets` of the absent `RenderObject.h`:
"{top, left, right, bottom: integers}". -/
structure Insets where
  top : Int
  left : Int
  right : Int
  bottom : Int
deriving DecidableEq, Repr

/-- Modelled from the spec: `Insets::all` of the absent `RenderObject.h`: "`all(n)` constructs
uniform insets". -/
def Insets.all (n : Int) : Insets := ⟨n, n, n, n⟩

/-- Modelled from the spec: `Insets::shrink` of the absent `RenderObject.h`:
"`shrink(Rect) -> Rect` removes insets from a rect"; the end-to-end scenario fixes the
arithmetic ((0,0)-(50,50) shrunk by all(5) is (5,5)-(45,45)). -/
def Insets.shrink (i : Insets) (r : Rect) : Rect :=
  ⟨⟨r.topLeft.x + i.left, r.topLeft.y + i.top⟩,
   ⟨r.bottomRight.x - i.right, r.bottomRight.y - i.bottom⟩⟩

/-! ## Constraints -/

/-- Modelled from the spec: `Constraints` of the absent `RenderObject.h`:
"{min: Size, max: Size}". -/
structure Constraints where
  min : Size
  max : Size
deriving DecidableEq, Repr

/-- Modelled from the spec: the value `INF` of an unbounded maximum (`Constraints` of the
absent `RenderObject.h`), taken to be the largest C++ `int`. -/
def Constraints.unbound : Int := 2147483647

/-- Modelled from the spec: `Constraints::hasBoundedWidth` of the absent `RenderObject.h`:
"checks max is finite/meaningful". -/
def Constraints.hasBoundedWidth (c : Constraints) : Bool :=
  decide (c.max.width ≠ Constraints.unbound)

/-- Modelled from the spec: `Constraints::hasBoundedHeight` of the absent `RenderObject.h`:
"checks max is finite/meaningful". -/
def Constraints.hasBoundedHeight (c : Constraints) : Bool :=
  decide (c.max.height ≠ Constraints.unbound)

/-- Modelled from the spec: `Constraints::inset` of the absent `RenderObject.h`: "subtracts
`i` from both min and max width/height, floored implicitly by caller discipline (no
clamping inside)". -/
def Constraints.inset (c : Constraints) (i : Insets) : Constraints :=
  ⟨⟨c.min.width - (i.left + i.right), c.min.height - (i.top + i.bottom)⟩,
   ⟨c.max.width - (i.left + i.right), c.max.height - (i.top + i.bottom)⟩⟩

/-- Modelled from the spec: `Constraints::expand` of the absent `RenderObject.h`: "returns
`{child.width + i.left + i.right, child.height + i.top + i.bottom}`". -/
def Constraints.expand (_c : Constraints) (child : Size) (i : Insets) : Size :=
  ⟨child.width + i.left + i.right, child.height + i.top + i.bottom⟩

/-- The order `min <= max` componentwise that callers are to maintain. -/
def Constraints.WellFormed (c : Constraints) : Prop :=
  c.min.width ≤ c.max.width ∧ c.min.height ≤ c.max.height

instance (c : Constraints) : Decidable c.WellFormed := by
  unfold Constraints.WellFormed; infer_instance

/-- The function `std::clamp(v, lo, hi)` of the C++ standard library: `lo` if `v < lo`,
`hi` if `hi < v`, otherwise `v`. -/
def clamp (v lo hi : Int) : Int :=
  if v < lo then lo else if hi < v then hi else v

/-- The C++ subtraction `a - b` of two `int`s: the exact difference when that is
representable in 32 bits, and otherwise, where C++ leaves the result undefined, the
two's-complement wrap of it. -/
def intSub (a b : Int) : Int :=
  (a - b + 2147483648) % 4294967296 - 2147483648

/-! ## Canvas and update regions -/

/-- Modelled from the spec: the two operations of the external `Canvas` that the
primitives use: `drawLine(Point, Point, Color)` and `set(Rect, Color)` (fill). -/
inductive CanvasOp where
  | drawLine (a b : Point) (color : Int)
  | set (r : Rect) (color : Int)
deriving DecidableEq, Repr

/-- The canvas, as the sequence of operations it has received, oldest first. -/
abbrev Canvas := List CanvasOp

/-- Modelled from the spec: the refresh modes of the absent `FrameBuffer.h`: "a mode
distinguishing at least full/high-quality clear from fast partial refresh".  `DU` is the
mode the source names; `GC16` stands for the full, high-quality mode, which is also the
mode of an `UpdateRegion` built from a rectangle alone. -/
inductive Waveform where
  | DU
  | GC16
deriving DecidableEq, Repr

/-- Modelled from the spec: `UpdateRegion` of the absent `RenderObject.h`: "a set of
(Rect, WaveformMode) entries", merged by accumulation (`|` and `|=` are set union, the
default-constructed region is empty). -/
abbrev UpdateRegion := Finset (Rect × Waveform)

/-- Modelled from the spec: the constructor `UpdateRegion{ rect, waveform }`. -/
def UpdateRegion.mk (r : Rect) (w : Waveform) : UpdateRegion := {(r, w)}

/-- Modelled from the spec: the constructor `UpdateRegion{ rect }`, with the default
(full) refresh mode. -/
def UpdateRegion.ofRect (r : Rect) : UpdateRegion := {(r, Waveform.GC16)}

/-! ## Render object base -/

/-- Modelled from the spec: the state of the base class `RenderObject` of the absent
`RenderObject.h`: the three dirty flags and the last computed size.  A freshly created
render object is dirty in every respect. -/
structure RenderObject where
  needsLayout : Bool := true
  needsDraw : Bool := true
  needsFullDraw : Bool := true
  size : Size := ⟨0, 0⟩
deriving DecidableEq, Repr

namespace RenderObject

/-- Modelled from the spec: `RenderObject::markNeedsLayout` "sets needsLayout".  It leaves
the draw flags alone: the primitives of `Layout.h` mark drawing themselves next to it,
and Positioned relies on the node not being marked for a full draw after it. -/
def markNeedsLayout (r : RenderObject) : RenderObject :=
  { r with needsLayout := true }

/-- Modelled from the spec: `RenderObject::markNeedsDraw(full)` "sets needsDraw; if called
with full=true it also sets needsFullDraw; calling with full=false after a prior
full=true must NOT downgrade it". -/
def markNeedsDraw (full : Bool) (r : RenderObject) : RenderObject :=
  { r with needsDraw := true, needsFullDraw := r.needsFullDraw || full }

/-- Modelled from the spec: `RenderObject::getNeedsDraw`, the node's own needs-draw flag. -/
def getNeedsDraw (r : RenderObject) : Bool := r.needsDraw

/-- Modelled from the spec: `RenderObject::getNeedsLayout`, the node's own needs-layout
flag. -/
def getNeedsLayout (r : RenderObject) : Bool := r.needsLayout

/-- Modelled from the spec: `RenderObject::isFullDraw`: the node is marked for drawing and
the draw is a full one. -/
def isFullDraw (r : RenderObject) : Bool := r.needsDraw && r.needsFullDraw

/-- Modelled from the spec: `RenderObject::getSize`, the size of the last layout. -/
def getSize (r : RenderObject) : Size := r.size

end RenderObject

/-- The member functions of a child render object of type `σ` configured by widgets of
type `ω`, as the primitives call them through `this->child` and `widget->child`. -/
structure ChildOps (ω σ : Type) where
  layout : Constraints → σ → Size × σ
  draw : Rect → Canvas → σ → UpdateRegion × Canvas × σ
  update : ω → σ → σ
  markNeedsLayout : σ → σ
  markNeedsDraw : Bool → σ → σ
  getNeedsLayout : σ → Bool
  getNeedsDraw : σ → Bool

/-- One call received by a child render object; a draw call is recorded with the canvas
as it was when the call was made. -/
inductive ChildCall (ω : Type) where
  | layout (c : Constraints)
  | draw (r : Rect) (canvas : Canvas)
  | update (w : ω)
  | markNeedsLayout
  | markNeedsDraw (full : Bool)
deriving DecidableEq

/-- A child that behaves as `ops` does and keeps the list of the calls it received,
oldest first. -/
def ChildOps.traced {ω σ : Type} (ops : ChildOps ω σ) : ChildOps ω (σ × List (ChildCall ω)) where
  layout := fun c s => ((ops.layout c s.1).1, ((ops.layout c s.1).2, s.2 ++ [ChildCall.layout c]))
  draw := fun r cv s =>
    ((ops.draw r cv s.1).1, (ops.draw r cv s.1).2.1,
      ((ops.draw r cv s.1).2.2, s.2 ++ [ChildCall.draw r cv]))
  update := fun w s => (ops.update w s.1, s.2 ++ [ChildCall.update w])
  markNeedsLayout := fun s => (ops.markNeedsLayout s.1, s.2 ++ [ChildCall.markNeedsLayout])
  markNeedsDraw := fun full s => (ops.markNeedsDraw full s.1, s.2 ++ [ChildCall.markNeedsDraw full])
  getNeedsLayout := fun s => ops.getNeedsLayout s.1
  getNeedsDraw := fun s => ops.getNeedsDraw s.1

/-- Modelled from the spec: the state of `SingleChildRenderObject<Widget>` of the absent
`RenderObject.h`: the base state, the widget the node was last configured with (the C++
member is a pointer to it) and the owned child render object. -/
structure SingleChildRenderObject (W σ : Type) where
  base : RenderObject
  widget : W
  child : σ

namespace SingleChildRenderObject

variable {W ω σ : Type}

/-- Modelled from the spec: `SingleChildRenderObject::markNeedsLayout`, which marks the node
and its child. -/
def markNeedsLayout (ops : ChildOps ω σ) (self : SingleChildRenderObject W σ) :
    SingleChildRenderObject W σ :=
  { self with base := self.base.markNeedsLayout, child := ops.markNeedsLayout self.child }

/-- Modelled from the spec: `SingleChildRenderObject::markNeedsDraw(full)`, which marks the
node and its child; the source calls `RenderObject::markNeedsDraw` instead where "our
child shouldn't be redrawn". -/
def markNeedsDraw (ops : ChildOps ω σ) (full : Bool) (self : SingleChildRenderObject W σ) :
    SingleChildRenderObject W σ :=
  { self with base := self.base.markNeedsDraw full, child := ops.markNeedsDraw full self.child }

/-- The call `RenderObject::markNeedsDraw(full)` on a single-child node: only the node's own
flags change. -/
def markNeedsDrawSelf (full : Bool) (self : SingleChildRenderObject W σ) :
    SingleChildRenderObject W σ :=
  { self with base := self.base.markNeedsDraw full }

end SingleChildRenderObject

/-- Modelled from the spec: the public `RenderObject::layout` of the absent `RenderObject.h`,
over a node of any state type `S`: a node whose subtree is dirty for layout (`needs`)
runs `doLayout`, stores the size and clears its needs-layout flag; a clean one answers
with the size of its last layout "without recomputation". -/
def RenderObject.layout {S : Type} (base : S → RenderObject) (setBase : RenderObject → S → S)
    (needs : S → Bool) (doLayout : Constraints → S → Size × S)
    (constraints : Constraints) (self : S) : Size × S :=
  if needs self then
    let res := doLayout constraints self
    (res.1, setBase { base res.2 with needsLayout := false, size := res.1 } res.2)
  else
    ((base self).getSize, self)

/-- Modelled from the spec: the public `RenderObject::draw` of the absent `RenderObject.h`,
over a node of any state type `S`: a node whose subtree is dirty for drawing (`needs`)
runs `doDraw` and then clears its two draw flags; a clean one returns the empty region
and leaves the canvas alone. -/
def RenderObject.draw {S : Type} (base : S → RenderObject) (setBase : RenderObject → S → S)
    (needs : S → Bool) (doDraw : Rect → Canvas → S → UpdateRegion × Canvas × S)
    (rect : Rect) (canvas : Canvas) (self : S) : UpdateRegion × Canvas × S :=
  if needs self then
    let res := doDraw rect canvas self
    (res.1, res.2.1,
      setBase { base res.2.2 with needsDraw := false, needsFullDraw := false } res.2.2)
  else
    (∅, canvas, self)

namespace SingleChildRenderObject

variable {W ω σ : Type}

/-- Modelled from the spec: the virtual `getNeedsLayout` of a single-child node: the node or
its child needs layout. -/
def getNeedsLayout (ops : ChildOps ω σ) (self : SingleChildRenderObject W σ) : Bool :=
  self.base.getNeedsLayout || ops.getNeedsLayout self.child

/-- Modelled from the spec: the virtual `getNeedsDraw` of a single-child node: the node or its
child needs drawing; the source calls `RenderObject::getNeedsDraw` instead to "ignore our
child". -/
def getNeedsDraw (ops : ChildOps ω σ) (self : SingleChildRenderObject W σ) : Bool :=
  self.base.getNeedsDraw || ops.getNeedsDraw self.child

/-- Replaces the base state of a single-child node. -/
def setBase (b : RenderObject) (self : SingleChildRenderObject W σ) :
    SingleChildRenderObject W σ :=
  { self with base := b }

end SingleChildRenderObject

/-! ## Center -/

/-- The widget `Center<Child>`. -/
structure Center (ω : Type) where
  child : ω

/-- The state of `CenterRenderObject<Child>`: a single-child node with the private member
`childSize`. -/
structure CenterRenderObject (ω σ : Type) extends SingleChildRenderObject (Center ω) σ where
  childSize : Size

namespace CenterRenderObject

variable {ω σ : Type}

/-- The function `CenterRenderObject::doLayout`. -/
def doLayout (ops : ChildOps ω σ) (constraints : Constraints) (self : CenterRenderObject ω σ) :
    Size × CenterRenderObject ω σ :=
  let res := ops.layout ⟨⟨0, 0⟩, constraints.max⟩ self.child
  let childSize := res.1
  let result := constraints.max
  let result : Size :=
    if !constraints.hasBoundedWidth then { result with width := childSize.width } else result
  let result : Size :=
    if !constraints.hasBoundedHeight then { result with height := childSize.height } else result
  (result, { self with child := res.2, childSize := childSize })

/-- The function `CenterRenderObject::update`. -/
def update (ops : ChildOps ω σ) (newWidget : Center ω) (self : CenterRenderObject ω σ) :
    CenterRenderObject ω σ :=
  { self with widget := newWidget, child := ops.update newWidget.child self.child }

/-- The function `CenterRenderObject::doDraw`; C++ `/` on `int` truncates toward zero. -/
def doDraw (ops : ChildOps ω σ) (rect : Rect) (canvas : Canvas) (self : CenterRenderObject ω σ) :
    UpdateRegion × Canvas × CenterRenderObject ω σ :=
  let xOffset := Int.tdiv (rect.width - self.childSize.width) 2
  let yOffset := Int.tdiv (rect.height - self.childSize.height) 2
  let topLeft := rect.topLeft + (⟨xOffset, yOffset⟩ : Point)
  let bottomRight := topLeft + self.childSize.toPoint
  let res := ops.draw ⟨topLeft, bottomRight⟩ canvas self.child
  (res.1, res.2.1, { self with child := res.2.2 })

end CenterRenderObject

/-! ## Padding -/

/-- The widget `Padding<Child>`. -/
structure Padding (ω : Type) where
  child : ω
  insets : Insets

/-- The state of `PaddingRenderObject<Child>`. -/
abbrev PaddingRenderObject (ω σ : Type) := SingleChildRenderObject (Padding ω) σ

namespace PaddingRenderObject

variable {ω σ : Type}

/-- The function `PaddingRenderObject::update`; `markNeedsDraw()` has the default argument
`full = true`. -/
def update (ops : ChildOps ω σ) (newWidget : Padding ω) (self : PaddingRenderObject ω σ) :
    PaddingRenderObject ω σ :=
  let self : PaddingRenderObject ω σ :=
    if newWidget.insets ≠ self.widget.insets then
      (self.markNeedsLayout ops).markNeedsDraw ops true
    else self
  { self with widget := newWidget, child := ops.update newWidget.child self.child }

/-- The function `PaddingRenderObject::doLayout`. -/
def doLayout (ops : ChildOps ω σ) (constraints : Constraints) (self : PaddingRenderObject ω σ) :
    Size × PaddingRenderObject ω σ :=
  let childConstraints := constraints.inset self.widget.insets
  let res := ops.layout childConstraints self.child
  let childSize := res.1
  (constraints.expand childSize self.widget.insets, { self with child := res.2 })

/-- The function `PaddingRenderObject::doDraw`. -/
def doDraw (ops : ChildOps ω σ) (rect : Rect) (canvas : Canvas) (self : PaddingRenderObject ω σ) :
    UpdateRegion × Canvas × PaddingRenderObject ω σ :=
  let childRect := self.widget.insets.shrink rect
  let res := ops.draw childRect canvas self.child
  let childRegion := res.1
  (childRegion, res.2.1, { self with child := res.2.2 })

end PaddingRenderObject

/-! ## CircularBorder -/

/-- The widget `CircularBorder<Child>`. -/
structure CircularBorder (ω : Type) where
  child : ω
  size : Insets
  color : Int

/-- The state of `CircularBorderRenderObject<Child>`. -/
abbrev CircularBorderRenderObject (ω σ : Type) := SingleChildRenderObject (CircularBorder ω) σ

/-- The two floating-point expressions of `drawCircle`, taken as parameters: `rcos r d` stands
for `int(r * cos(d * M_PI / 180.0))` and `rsin r d` for `int(r * sin(d * M_PI / 180.0))`. -/
structure Trig where
  rcos : Int → Nat → Int
  rsin : Int → Nat → Int

namespace CircularBorderRenderObject

variable {ω σ : Type}

/-- The function `CircularBorderRenderObject::update`. -/
def update (ops : ChildOps ω σ) (newWidget : CircularBorder ω)
    (self : CircularBorderRenderObject ω σ) : CircularBorderRenderObject ω σ :=
  let self : CircularBorderRenderObject ω σ :=
    if self.widget.size ≠ newWidget.size then self.markNeedsLayout ops else self
  let self : CircularBorderRenderObject ω σ :=
    if self.widget.color ≠ newWidget.color then self.markNeedsDrawSelf false else self
  { self with widget := newWidget, child := ops.update newWidget.child self.child }

/-- The function `CircularBorderRenderObject::doLayout`. -/
def doLayout (ops : ChildOps ω σ) (constraints : Constraints)
    (self : CircularBorderRenderObject ω σ) : Size × CircularBorderRenderObject ω σ :=
  let childConstraints := constraints.inset self.widget.size
  let res := ops.layout childConstraints self.child
  let childSize := res.1
  let newSize := constraints.expand childSize self.widget.size
  let self : CircularBorderRenderObject ω σ := { self with child := res.2 }
  let self : CircularBorderRenderObject ω σ :=
    if newSize ≠ self.base.getSize then self.markNeedsDraw ops true else self
  (newSize, self)

/-- The inner loop of the lambda `drawCircle`: the 360 segments of one ring of radius `r`,
starting from the point `st.1`. -/
def drawCircleRing (t : Trig) (color : Int) (c : Point) (r : Int) (st : Point × Canvas) :
    Point × Canvas :=
  (List.range 360).foldl
    (fun (st : Point × Canvas) (d : Nat) =>
      let current : Point := ⟨c.x + t.rcos r d, c.y + t.rsin r d⟩
      (current, st.2 ++ [CanvasOp.drawLine st.1 current color]))
    st

/-- The outer loop of the lambda `drawCircle`: `n` rings, the radius going down by one
from ring to ring. -/
def drawCircleLoop (t : Trig) (color : Int) (c : Point) :
    Nat → Int → Point × Canvas → Point × Canvas
  | 0, _, st => st
  | n + 1, r, st => drawCircleLoop t color c n (r - 1) (drawCircleRing t color c r st)

/-- The lambda `drawCircle` of `CircularBorderRenderObject::doDraw`. -/
def drawCircle (t : Trig) (color : Int) (c : Point) (r : Int) (size : Int) (canvas : Canvas) :
    Canvas :=
  (drawCircleLoop t color c size.toNat r (⟨c.x + r, c.y⟩, canvas)).2

/-- The function `CircularBorderRenderObject::doDraw`. -/
def doDraw (t : Trig) (ops : ChildOps ω σ) (rect : Rect) (canvas : Canvas)
    (self : CircularBorderRenderObject ω σ) :
    UpdateRegion × Canvas × CircularBorderRenderObject ω σ :=
  let res := ops.draw (self.widget.size.shrink rect) canvas self.child
  let result := res.1
  let self : CircularBorderRenderObject ω σ := { self with child := res.2.2 }
  if self.base.getNeedsDraw then
    let canvas := drawCircle t self.widget.color
      ⟨rect.topLeft.x + Int.tdiv (rect.bottomRight.x - rect.topLeft.x).natAbs 2,
       rect.topLeft.y + Int.tdiv (rect.bottomRight.y - rect.topLeft.y).natAbs 2⟩
      (Int.tdiv (rect.bottomRight.x - rect.topLeft.x).natAbs 2) self.widget.size.top res.2.1
    (result ∪ UpdateRegion.mk rect Waveform.DU, canvas, self)
  else
    (result, res.2.1, self)

end CircularBorderRenderObject

/-! ## Border -/

/-- The widget `Border<Child>`. -/
structure Border (ω : Type) where
  child : ω
  size : Insets
  color : Int

/-- The state of `BorderRenderObject<Child>`. -/
abbrev BorderRenderObject (ω σ : Type) := SingleChildRenderObject (Border ω) σ

namespace BorderRenderObject

variable {ω σ : Type}

/-- The function `BorderRenderObject::update`. -/
def update (ops : ChildOps ω σ) (newWidget : Border ω) (self : BorderRenderObject ω σ) :
    BorderRenderObject ω σ :=
  let self : BorderRenderObject ω σ :=
    if self.widget.size ≠ newWidget.size then self.markNeedsLayout ops else self
  let self : BorderRenderObject ω σ :=
    if self.widget.color ≠ newWidget.color then self.markNeedsDrawSelf false else self
  { self with widget := newWidget, child := ops.update newWidget.child self.child }

/-- The function `BorderRenderObject::doLayout`. -/
def doLayout (ops : ChildOps ω σ) (constraints : Constraints) (self : BorderRenderObject ω σ) :
    Size × BorderRenderObject ω σ :=
  let childConstraints := constraints.inset self.widget.size
  let res := ops.layout childConstraints self.child
  let childSize := res.1
  let newSize := constraints.expand childSize self.widget.size
  let self : BorderRenderObject ω σ := { self with child := res.2 }
  let self : BorderRenderObject ω σ :=
    if newSize ≠ self.base.getSize then self.markNeedsDraw ops true else self
  (newSize, self)

/-- The loop of the lambda `drawLine`: `n` lines, both endpoints moving by `dir` from line
to line. -/
def drawLineLoop (color : Int) (dir : Point) : Nat → Point → Point → Canvas → Canvas
  | 0, _, _, canvas => canvas
  | n + 1, a, b, canvas =>
    drawLineLoop color dir n (a + dir) (b + dir) (canvas ++ [CanvasOp.drawLine a b color])

/-- The lambda `drawLine` of `BorderRenderObject::doDraw`. -/
def drawLine (color : Int) (a b dir : Point) (size : Int) (canvas : Canvas) : Canvas :=
  drawLineLoop color dir size.toNat a b canvas

/-- The four calls of `drawLine` in `BorderRenderObject::doDraw`: top, left, right and
bottom band. -/
def drawBands (color : Int) (size : Insets) (rect : Rect) (canvas : Canvas) : Canvas :=
  let canvas := drawLine color rect.topLeft ⟨rect.bottomRight.x, rect.topLeft.y⟩ ⟨0, 1⟩
    size.top canvas
  let canvas := drawLine color rect.topLeft ⟨rect.topLeft.x, rect.bottomRight.y⟩ ⟨1, 0⟩
    size.left canvas
  let canvas := drawLine color ⟨rect.bottomRight.x, rect.topLeft.y⟩ rect.bottomRight ⟨-1, 0⟩
    size.right canvas
  drawLine color ⟨rect.topLeft.x, rect.bottomRight.y⟩ rect.bottomRight ⟨0, -1⟩
    size.bottom canvas

/-- The function `BorderRenderObject::doDraw`. -/
def doDraw (ops : ChildOps ω σ) (rect : Rect) (canvas : Canvas) (self : BorderRenderObject ω σ) :
    UpdateRegion × Canvas × BorderRenderObject ω σ :=
  let res := ops.draw (self.widget.size.shrink rect) canvas self.child
  let result := res.1
  let self : BorderRenderObject ω σ := { self with child := res.2.2 }
  if self.base.getNeedsDraw then
    let canvas := drawBands self.widget.color self.widget.size rect res.2.1
    (result ∪ UpdateRegion.mk rect Waveform.DU, canvas, self)
  else
    (result, res.2.1, self)

end BorderRenderObject

/-! ## Sized -/

/-- The widget `Sized<Child>`. -/
structure Sized (ω : Type) where
  child : ω
  width : Option Int
  height : Option Int

/-- The state of `SizedRenderObject<Child>`. -/
abbrev SizedRenderObject (ω σ : Type) := SingleChildRenderObject (Sized ω) σ

namespace SizedRenderObject

variable {ω σ : Type}

/-- The function `SizedRenderObject::update`. -/
def update (ops : ChildOps ω σ) (newWidget : Sized ω) (self : SizedRenderObject ω σ) :
    SizedRenderObject ω σ :=
  let self : SizedRenderObject ω σ :=
    if newWidget.width ≠ self.widget.width ∨ newWidget.height ≠ self.widget.height then
      (self.markNeedsLayout ops).markNeedsDraw ops true
    else self
  { self with widget := newWidget, child := ops.update newWidget.child self.child }

/-- The function `SizedRenderObject::doLayout`. -/
def doLayout (ops : ChildOps ω σ) (constraints : Constraints) (self : SizedRenderObject ω σ) :
    Size × SizedRenderObject ω σ :=
  let w := self.widget.width
  let h := self.widget.height
  let childConstraints : Constraints :=
    ⟨⟨match w with
        | some v => clamp v constraints.min.width constraints.max.width
        | none => constraints.min.width,
      match h with
        | some v => clamp v constraints.min.height constraints.max.height
        | none => constraints.min.height⟩,
     ⟨match w with
        | some v => clamp v constraints.min.width constraints.max.width
        | none => constraints.max.width,
      match h with
        | some v => clamp v constraints.min.height constraints.max.height
        | none => constraints.max.height⟩⟩
  let res := ops.layout childConstraints self.child
  let childSize := res.1
  (childSize, { self with child := res.2 })

/-- The function `SizedRenderObject::doDraw`. -/
def doDraw (ops : ChildOps ω σ) (rect : Rect) (canvas : Canvas) (self : SizedRenderObject ω σ) :
    UpdateRegion × Canvas × SizedRenderObject ω σ :=
  let res := ops.draw rect canvas self.child
  (res.1, res.2.1, { self with child := res.2.2 })

end SizedRenderObject

/-! ## Cleared -/

/-- The widget `Cleared<Child>`. -/
structure Cleared (ω : Type) where
  child : ω
  color : Int

/-- The state of `ClearedRenderObject<Child>`. -/
abbrev ClearedRenderObject (ω σ : Type) := SingleChildRenderObject (Cleared ω) σ

namespace ClearedRenderObject

variable {ω σ : Type}

/-- The function `ClearedRenderObject::update`. -/
def update (ops : ChildOps ω σ) (newWidget : Cleared ω) (self : ClearedRenderObject ω σ) :
    ClearedRenderObject ω σ :=
  let self : ClearedRenderObject ω σ :=
    if newWidget.color ≠ self.widget.color then self.markNeedsDraw ops true else self
  { self with widget := newWidget, child := ops.update newWidget.child self.child }

/-- The function `ClearedRenderObject::doLayout`. -/
def doLayout (ops : ChildOps ω σ) (constraints : Constraints) (self : ClearedRenderObject ω σ) :
    Size × ClearedRenderObject ω σ :=
  let res := ops.layout constraints self.child
  (res.1, { self with child := res.2 })

/-- The function `ClearedRenderObject::doDraw`. -/
def doDraw (ops : ChildOps ω σ) (rect : Rect) (canvas : Canvas) (self : ClearedRenderObject ω σ) :
    UpdateRegion × Canvas × ClearedRenderObject ω σ :=
  let region : UpdateRegion := ∅
  let filled : Canvas × UpdateRegion :=
    if self.base.isFullDraw then
      (canvas ++ [CanvasOp.set rect self.widget.color], UpdateRegion.ofRect rect)
    else (canvas, region)
  let res := ops.draw rect filled.1 self.child
  (filled.2 ∪ res.1, res.2.1, { self with child := res.2.2 })

end ClearedRenderObject

/-! ## Positioned -/

/-- The widget `Positioned<Child>`. -/
structure Positioned (ω : Type) where
  child : ω
  position : Point

/-- The state of `PositionedRenderObject<Child>`: a single-child node with the private
member `childSize`. -/
structure PositionedRenderObject (ω σ : Type) extends
    SingleChildRenderObject (Positioned ω) σ where
  childSize : Size

namespace PositionedRenderObject

variable {ω σ : Type}

/-- The function `PositionedRenderObject::update`. -/
def update (ops : ChildOps ω σ) (newWidget : Positioned ω) (self : PositionedRenderObject ω σ) :
    PositionedRenderObject ω σ :=
  let self : PositionedRenderObject ω σ :=
    if newWidget.position ≠ self.widget.position then
      let node := (self.toSingleChildRenderObject.markNeedsLayout ops).markNeedsDrawSelf false
      { self with base := node.base, child := ops.markNeedsDraw true node.child }
    else self
  { self with widget := newWidget, child := ops.update newWidget.child self.child }

/-- The function `PositionedRenderObject::doLayout`. -/
def doLayout (ops : ChildOps ω σ) (constraints : Constraints)
    (self : PositionedRenderObject ω σ) : Size × PositionedRenderObject ω σ :=
  let newConstraints : Constraints :=
    ⟨⟨0, 0⟩,
     ⟨intSub constraints.max.width self.widget.position.x,
      intSub constraints.max.height self.widget.position.y⟩⟩
  let res := ops.layout newConstraints self.child
  let childSize := res.1
  let result := constraints.max
  let result : Size :=
    if !constraints.hasBoundedWidth then { result with width := childSize.width } else result
  let result : Size :=
    if !constraints.hasBoundedHeight then { result with height := childSize.height } else result
  (result, { self with child := res.2, childSize := childSize })

/-- The function `PositionedRenderObject::doDraw`. -/
def doDraw (ops : ChildOps ω σ) (rect : Rect) (canvas : Canvas)
    (self : PositionedRenderObject ω σ) : UpdateRegion × Canvas × PositionedRenderObject ω σ :=
  let topLeft := rect.topLeft + self.widget.position
  let bottomRight := topLeft + self.childSize.toPoint
  let res := ops.draw ⟨topLeft, bottomRight⟩ canvas self.child
  (res.1, res.2.1, { self with child := res.2.2 })

end PositionedRenderObject

/-! ## Public entry points of a Border node and a leaf for the examples -/

/-- The public `layout` of a Border node: `RenderObject::layout` dispatching to
`BorderRenderObject::doLayout`. -/
def BorderRenderObject.layout {ω σ : Type} (ops : ChildOps ω σ) (constraints : Constraints)
    (self : BorderRenderObject ω σ) : Size × BorderRenderObject ω σ :=
  RenderObject.layout (fun s => s.base) SingleChildRenderObject.setBase
    (SingleChildRenderObject.getNeedsLayout ops) (BorderRenderObject.doLayout ops)
    constraints self

/-- The public `draw` of a Border node: `RenderObject::draw` dispatching to
`BorderRenderObject::doDraw`. -/
def BorderRenderObject.draw {ω σ : Type} (ops : ChildOps ω σ) (rect : Rect) (canvas : Canvas)
    (self : BorderRenderObject ω σ) : UpdateRegion × Canvas × BorderRenderObject ω σ :=
  RenderObject.draw (fun s => s.base) SingleChildRenderObject.setBase
    (SingleChildRenderObject.getNeedsDraw ops) (BorderRenderObject.doDraw ops)
    rect canvas self

/-- A leaf render object without state, for the examples: it answers a layout under `c`
with `f c`, carries no dirty flag, draws nothing and reports the empty region. -/
def staticLeaf (f : Constraints → Size) : ChildOps Unit Unit where
  layout := fun c s => (f c, s)
  draw := fun _ canvas s => (∅, canvas, s)
  update := fun _ s => s
  markNeedsLayout := fun s => s
  markNeedsDraw := fun _ s => s
  getNeedsLayout := fun _ => false
  getNeedsDraw := fun _ => false

/-! ## Public entry points of the other primitives, and the primitives as children -/

/-- Modelled from the spec: the constructor of `SingleChildRenderObject` of the absent
`RenderObject.h`, as `createRenderObject` uses it: a node "initially-dirty
(needsLayout=true, needsDraw=true, full=true)" bound to `widget`; `child` is the render
object created from the widget's child. -/
def SingleChildRenderObject.create {W σ : Type} (widget : W) (child : σ) :
    SingleChildRenderObject W σ :=
  ⟨{}, widget, child⟩

/-- A Border node as a child: its public member functions. -/
def BorderRenderObject.ops {ω σ : Type} (ops : ChildOps ω σ) :
    ChildOps (Border ω) (BorderRenderObject ω σ) where
  layout := BorderRenderObject.layout ops
  draw := BorderRenderObject.draw ops
  update := BorderRenderObject.update ops
  markNeedsLayout := SingleChildRenderObject.markNeedsLayout ops
  markNeedsDraw := SingleChildRenderObject.markNeedsDraw ops
  getNeedsLayout := SingleChildRenderObject.getNeedsLayout ops
  getNeedsDraw := SingleChildRenderObject.getNeedsDraw ops

/-- The public `layout` of a Padding node. -/
def PaddingRenderObject.layout {ω σ : Type} (ops : ChildOps ω σ) (constraints : Constraints)
    (self : PaddingRenderObject ω σ) : Size × PaddingRenderObject ω σ :=
  RenderObject.layout (fun s => s.base) SingleChildRenderObject.setBase
    (SingleChildRenderObject.getNeedsLayout ops) (PaddingRenderObject.doLayout ops)
    constraints self

/-- The public `draw` of a Padding node. -/
def PaddingRenderObject.draw {ω σ : Type} (ops : ChildOps ω σ) (rect : Rect) (canvas : Canvas)
    (self : PaddingRenderObject ω σ) : UpdateRegion × Canvas × PaddingRenderObject ω σ :=
  RenderObject.draw (fun s => s.base) SingleChildRenderObject.setBase
    (SingleChildRenderObject.getNeedsDraw ops) (PaddingRenderObject.doDraw ops)
    rect canvas self

/-- A Padding node as a child: its public member functions. -/
def PaddingRenderObject.ops {ω σ : Type} (ops : ChildOps ω σ) :
    ChildOps (Padding ω) (PaddingRenderObject ω σ) where
  layout := PaddingRenderObject.layout ops
  draw := PaddingRenderObject.draw ops
  update := PaddingRenderObject.update ops
  markNeedsLayout := SingleChildRenderObject.markNeedsLayout ops
  markNeedsDraw := SingleChildRenderObject.markNeedsDraw ops
  getNeedsLayout := SingleChildRenderObject.getNeedsLayout ops
  getNeedsDraw := SingleChildRenderObject.getNeedsDraw ops

/-- The public `layout` of a CircularBorder node. -/
def CircularBorderRenderObject.layout {ω σ : Type} (ops : ChildOps ω σ)
    (constraints : Constraints) (self : CircularBorderRenderObject ω σ) :
    Size × CircularBorderRenderObject ω σ :=
  RenderObject.layout (fun s => s.base) SingleChildRenderObject.setBase
    (SingleChildRenderObject.getNeedsLayout ops) (CircularBorderRenderObject.doLayout ops)
    constraints self

/-- The public `draw` of a CircularBorder node. -/
def CircularBorderRenderObject.draw {ω σ : Type} (t : Trig) (ops : ChildOps ω σ) (rect : Rect)
    (canvas : Canvas) (self : CircularBorderRenderObject ω σ) :
    UpdateRegion × Canvas × CircularBorderRenderObject ω σ :=
  RenderObject.draw (fun s => s.base) SingleChildRenderObject.setBase
    (SingleChildRenderObject.getNeedsDraw ops) (CircularBorderRenderObject.doDraw t ops)
    rect canvas self

/-- A CircularBorder node as a child: its public member functions. -/
def CircularBorderRenderObject.ops {ω σ : Type} (t : Trig) (ops : ChildOps ω σ) :
    ChildOps (CircularBorder ω) (CircularBorderRenderObject ω σ) where
  layout := CircularBorderRenderObject.layout ops
  draw := CircularBorderRenderObject.draw t ops
  update := CircularBorderRenderObject.update ops
  markNeedsLayout := SingleChildRenderObject.markNeedsLayout ops
  markNeedsDraw := SingleChildRenderObject.markNeedsDraw ops
  getNeedsLayout := SingleChildRenderObject.getNeedsLayout ops
  getNeedsDraw := SingleChildRenderObject.getNeedsDraw ops

/-- The public `layout` of a Sized node. -/
def SizedRenderObject.layout {ω σ : Type} (ops : ChildOps ω σ) (constraints : Constraints)
    (self : SizedRenderObject ω σ) : Size × SizedRenderObject ω σ :=
  RenderObject.layout (fun s => s.base) SingleChildRenderObject.setBase
    (SingleChildRenderObject.getNeedsLayout ops) (SizedRenderObject.doLayout ops)
    constraints self

/-- The public `draw` of a Sized node. -/
def SizedRenderObject.draw {ω σ : Type} (ops : ChildOps ω σ) (rect : Rect) (canvas : Canvas)
    (self : SizedRenderObject ω σ) : UpdateRegion × Canvas × SizedRenderObject ω σ :=
  RenderObject.draw (fun s => s.base) SingleChildRenderObject.setBase
    (SingleChildRenderObject.getNeedsDraw ops) (SizedRenderObject.doDraw ops)
    rect canvas self

/-- A Sized node as a child: its public member functions. -/
def SizedRenderObject.ops {ω σ : Type} (ops : ChildOps ω σ) :
    ChildOps (Sized ω) (SizedRenderObject ω σ) where
  layout := SizedRenderObject.layout ops
  draw := SizedRenderObject.draw ops
  update := SizedRenderObject.update ops
  markNeedsLayout := SingleChildRenderObject.markNeedsLayout ops
  markNeedsDraw := SingleChildRenderObject.markNeedsDraw ops
  getNeedsLayout := SingleChildRenderObject.getNeedsLayout ops
  getNeedsDraw := SingleChildRenderObject.getNeedsDraw ops

/-- The public `layout` of a Cleared node. -/
def ClearedRenderObject.layout {ω σ : Type} (ops : ChildOps ω σ) (constraints : Constraints)
    (self : ClearedRenderObject ω σ) : Size × ClearedRenderObject ω σ :=
  RenderObject.layout (fun s => s.base) SingleChildRenderObject.setBase
    (SingleChildRenderObject.getNeedsLayout ops) (ClearedRenderObject.doLayout ops)
    constraints self

/-- The public `draw` of a Cleared node. -/
def ClearedRenderObject.draw {ω σ : Type} (ops : ChildOps ω σ) (rect : Rect) (canvas : Canvas)
    (self : ClearedRenderObject ω σ) : UpdateRegion × Canvas × ClearedRenderObject ω σ :=
  RenderObject.draw (fun s => s.base) SingleChildRenderObject.setBase
    (SingleChildRenderObject.getNeedsDraw ops) (ClearedRenderObject.doDraw ops)
    rect canvas self

/-- A Cleared node as a child: its public member functions. -/
def ClearedRenderObject.ops {ω σ : Type} (ops : ChildOps ω σ) :
    ChildOps (Cleared ω) (ClearedRenderObject ω σ) where
  layout := ClearedRenderObject.layout ops
  draw := ClearedRenderObject.draw ops
  update := ClearedRenderObject.update ops
  markNeedsLayout := SingleChildRenderObject.markNeedsLayout ops
  markNeedsDraw := SingleChildRenderObject.markNeedsDraw ops
  getNeedsLayout := SingleChildRenderObject.getNeedsLayout ops
  getNeedsDraw := SingleChildRenderObject.getNeedsDraw ops

/-- The public `layout` of a Center node. -/
def CenterRenderObject.layout {ω σ : Type} (ops : ChildOps ω σ) (constraints : Constraints)
    (self : CenterRenderObject ω σ) : Size × CenterRenderObject ω σ :=
  RenderObject.layout (fun s => s.base) (fun b s => { s with base := b })
    (fun s => SingleChildRenderObject.getNeedsLayout ops s.toSingleChildRenderObject)
    (CenterRenderObject.doLayout ops) constraints self

/-- The public `draw` of a Center node. -/
def CenterRenderObject.draw {ω σ : Type} (ops : ChildOps ω σ) (rect : Rect) (canvas : Canvas)
    (self : CenterRenderObject ω σ) : UpdateRegion × Canvas × CenterRenderObject ω σ :=
  RenderObject.draw (fun s => s.base) (fun b s => { s with base := b })
    (fun s => SingleChildRenderObject.getNeedsDraw ops s.toSingleChildRenderObject)
    (CenterRenderObject.doDraw ops) rect canvas self

/-- A Center node as a child: its public member functions. -/
def CenterRenderObject.ops {ω σ : Type} (ops : ChildOps ω σ) :
    ChildOps (Center ω) (CenterRenderObject ω σ) where
  layout := CenterRenderObject.layout ops
  draw := CenterRenderObject.draw ops
  update := CenterRenderObject.update ops
  markNeedsLayout := fun s =>
    { s with toSingleChildRenderObject := s.toSingleChildRenderObject.markNeedsLayout ops }
  markNeedsDraw := fun full s =>
    { s with toSingleChildRenderObject := s.toSingleChildRenderObject.markNeedsDraw ops full }
  getNeedsLayout := fun s =>
    SingleChildRenderObject.getNeedsLayout ops s.toSingleChildRenderObject
  getNeedsDraw := fun s => SingleChildRenderObject.getNeedsDraw ops s.toSingleChildRenderObject

/-- The public `layout` of a Positioned node. -/
def PositionedRenderObject.layout {ω σ : Type} (ops : ChildOps ω σ) (constraints : Constraints)
    (self : PositionedRenderObject ω σ) : Size × PositionedRenderObject ω σ :=
  RenderObject.layout (fun s => s.base) (fun b s => { s with base := b })
    (fun s => SingleChildRenderObject.getNeedsLayout ops s.toSingleChildRenderObject)
    (PositionedRenderObject.doLayout ops) constraints self

/-- The public `draw` of a Positioned node. -/
def PositionedRenderObject.draw {ω σ : Type} (ops : ChildOps ω σ) (rect : Rect)
    (canvas : Canvas) (self : PositionedRenderObject ω σ) :
    UpdateRegion × Canvas × PositionedRenderObject ω σ :=
  RenderObject.draw (fun s => s.base) (fun b s => { s with base := b })
    (fun s => SingleChildRenderObject.getNeedsDraw ops s.toSingleChildRenderObject)
    (PositionedRenderObject.doDraw ops) rect canvas self

/-- A Positioned node as a child: its public member functions. -/
def PositionedRenderObject.ops {ω σ : Type} (ops : ChildOps ω σ) :
    ChildOps (Positioned ω) (PositionedRenderObject ω σ) where
  layout := PositionedRenderObject.layout ops
  draw := PositionedRenderObject.draw ops
  update := PositionedRenderObject.update ops
  markNeedsLayout := fun s =>
    { s with toSingleChildRenderObject := s.toSingleChildRenderObject.markNeedsLayout ops }
  markNeedsDraw := fun full s =>
    { s with toSingleChildRenderObject := s.toSingleChildRenderObject.markNeedsDraw ops full }
  getNeedsLayout := fun s =>
    SingleChildRenderObject.getNeedsLayout ops s.toSingleChildRenderObject
  getNeedsDraw := fun s => SingleChildRenderObject.getNeedsDraw ops s.toSingleChildRenderObject

/-! ## The composition helper -/

/-- Modelled from the spec: the color constant `black` of the absent `Canvas.h`, the default
color of Border and CircularBorder; no result depends on its value. -/
def black : Int := 0

/-- Modelled from the spec: the color constant `white` of the absent `Canvas.h`, the default
color of Cleared; no result depends on its value. -/
def white : Int := 65535

/-- The constructor call `Border(child, size)`, with the default argument `color = black`. -/
def Border.withDefaultColor {ω : Type} (child : ω) (size : Insets) : Border ω :=
  ⟨child, size, black⟩

/-- The function `container`. -/
def container {ω : Type} (child : ω) (padding border margin : Insets) :
    Padding (Border (Padding ω)) :=
  Padding.mk (Border.withDefaultColor (Padding.mk child padding) border) margin

/-- The call `container(child)` with the default arguments `padding = {}`,
`border = Insets::all(0)` and `margin = {}`; `{}` value-initializes the four integers of
`Insets` to zero. -/
def containerDefault {ω : Type} (child : ω) : Padding (Border (Padding ω)) :=
  container child ⟨0, 0, 0, 0⟩ (Insets.all 0) ⟨0, 0, 0, 0⟩

/-- The composition as the specification words it:
`Padding(Border(Padding(child, padding), border), margin)`, the Border in `color`. -/
def containerSpec {ω : Type} (child : ω) (padding border margin : Insets) (color : Int) :
    Padding (Border (Padding ω)) :=
  ⟨⟨⟨child, padding⟩, border, color⟩, margin⟩

/-- The member functions of the render object of a `container` over a child `ops`. -/
def containerOps {ω σ : Type} (ops : ChildOps ω σ) :
    ChildOps (Padding (Border (Padding ω)))
      (PaddingRenderObject (Border (Padding ω))
        (BorderRenderObject (Padding ω) (PaddingRenderObject ω σ))) :=
  PaddingRenderObject.ops (BorderRenderObject.ops (PaddingRenderObject.ops ops))

/-- The freshly created render object of the widget `w` made by `container`, over the
child render object `child`. -/
def containerCreate {ω σ : Type} (w : Padding (Border (Padding ω))) (child : σ) :
    PaddingRenderObject (Border (Padding ω))
      (BorderRenderObject (Padding ω) (PaddingRenderObject ω σ)) :=
  SingleChildRenderObject.create w
    (SingleChildRenderObject.create w.child (SingleChildRenderObject.create w.child.child child))

/-! ## Containment -/

/-- A point lies inside a rect, the edges included. -/
def Rect.contains (r : Rect) (p : Point) : Prop :=
  r.topLeft.x ≤ p.x ∧ p.x ≤ r.bottomRight.x ∧ r.topLeft.y ≤ p.y ∧ p.y ≤ r.bottomRight.y

instance (r : Rect) (p : Point) : Decidable (r.contains p) := by
  unfold Rect.contains; infer_instance

/-- The rect `inner` lies within the rect `outer`. -/
def Rect.within (inner outer : Rect) : Prop :=
  outer.topLeft.x ≤ inner.topLeft.x ∧ inner.bottomRight.x ≤ outer.bottomRight.x ∧
  outer.topLeft.y ≤ inner.topLeft.y ∧ inner.bottomRight.y ≤ outer.bottomRight.y

instance (inner outer : Rect) : Decidable (inner.within outer) := by
  unfold Rect.within; infer_instance

/-- The union of the rectangles of the entries of a region covers the rect `r`. -/
def UpdateRegion.covers (region : UpdateRegion) (r : Rect) : Prop :=
  ∀ p : Point, r.contains p → ∃ e ∈ region, e.1.contains p

/-- A size lies within constraints: `c.min <= size <= c.max` componentwise. -/
def Constraints.contain (c : Constraints) (s : Size) : Prop :=
  c.min.width ≤ s.width ∧ s.width ≤ c.max.width ∧
  c.min.height ≤ s.height ∧ s.height ≤ c.max.height

instance (c : Constraints) (s : Size) : Decidable (c.contain s) := by
  unfold Constraints.contain; infer_instance

/-- The point `p` lies on the horizontal or vertical line drawn from `a` to `b`. -/
def onLine (a b p : Point) : Prop :=
  min a.x b.x ≤ p.x ∧ p.x ≤ max a.x b.x ∧ min a.y b.y ≤ p.y ∧ p.y ≤ max a.y b.y

/-! ## The end-to-end scenario -/

/-- A leaf render object for the examples.  Its widget is a color; its state is the flags
of `RenderObject` and the color it was last configured with.  It takes the largest size
allowed, is marked for a full draw when its color changes and, when drawn, fills its rect
with the color and reports that rect. -/
def colorLeaf : ChildOps Int (RenderObject × Int) where
  layout := RenderObject.layout (fun s => s.1) (fun b s => (b, s.2))
    (fun s => s.1.getNeedsLayout) (fun c s => (c.max, s))
  draw := RenderObject.draw (fun s => s.1) (fun b s => (b, s.2))
    (fun s => s.1.getNeedsDraw)
    (fun r canvas s => (UpdateRegion.ofRect r, canvas ++ [CanvasOp.set r s.2], s))
  update := fun w s => if w ≠ s.2 then (s.1.markNeedsDraw true, w) else s
  markNeedsLayout := fun s => (s.1.markNeedsLayout, s.2)
  markNeedsDraw := fun full s => (s.1.markNeedsDraw full, s.2)
  getNeedsLayout := fun s => s.1.getNeedsLayout
  getNeedsDraw := fun s => s.1.getNeedsDraw

/-- The widget tree of the scenario:
`Padding(Border(Cleared(leaf, color=white), size=Insets::all(2), color=black), Insets::all(5))`. -/
def scenario {ω : Type} (leaf : ω) : Padding (Border (Cleared ω)) :=
  ⟨⟨⟨leaf, white⟩, Insets.all 2, black⟩, Insets.all 5⟩

/-- The state of the render object tree of the scenario over a leaf of state `σ`. -/
abbrev ScenarioRenderObject (ω σ : Type) :=
  PaddingRenderObject (Border (Cleared ω)) (BorderRenderObject (Cleared ω) (ClearedRenderObject ω σ))

/-- The member functions of the render object tree of the scenario over the leaf `ops`. -/
def scenarioOps {ω σ : Type} (ops : ChildOps ω σ) :
    ChildOps (Padding (Border (Cleared ω))) (ScenarioRenderObject ω σ) :=
  PaddingRenderObject.ops (BorderRenderObject.ops (ClearedRenderObject.ops ops))

/-- The freshly created render object tree of the scenario, over the freshly created leaf
render object `s0`. -/
def scenarioCreate {ω σ : Type} (leaf : ω) (s0 : σ) : ScenarioRenderObject ω σ :=
  SingleChildRenderObject.create (scenario leaf)
    (SingleChildRenderObject.create (scenario leaf).child
      (SingleChildRenderObject.create (scenario leaf).child.child s0))

/-- The rect `(0,0)-(50,50)` of the scenario. -/
def scenarioRect : Rect := ⟨⟨0, 0⟩, ⟨50, 50⟩⟩

/-- The first frame of the scenario: the fresh tree is laid out under `c` and drawn over
`(0,0)-(50,50)` on `canvas`. -/
def scenarioFirstFrame {ω σ : Type} (ops : ChildOps ω σ) (leaf : ω) (s0 : σ) (c : Constraints)
    (canvas : Canvas) : UpdateRegion × Canvas × ScenarioRenderObject ω σ :=
  (scenarioOps ops).draw scenarioRect canvas
    ((scenarioOps ops).layout c (scenarioCreate leaf s0)).2

/-- Drawing twice in a row over the same rect, with nothing in between, gives the empty
region the second time. -/
def RedrawIdempotent {ω σ : Type} (ops : ChildOps ω σ) : Prop :=
  ∀ (r : Rect) (canvas canvas' : Canvas) (s : σ),
    (ops.draw r canvas' (ops.draw r canvas s).2.2).1 = ∅

/-! ## The bands of a Border, as specified -/

/-- The lines of the four bands as the specification words them, in the order top, left,
right, bottom: line `k` of the top band is the full-width horizontal line at
`y = topLeft.y + k`, of the left band the full-height vertical line at `x = topLeft.x + k`,
of the right band the vertical line at `x = bottomRight.x - k`, of the bottom band the
horizontal line at `y = bottomRight.y - k`. -/
def borderBandsSpec (color : Int) (size : Insets) (rect : Rect) : List CanvasOp :=
  (List.range size.top.toNat).map (fun k : Nat =>
      CanvasOp.drawLine ⟨rect.topLeft.x, rect.topLeft.y + k⟩
        ⟨rect.bottomRight.x, rect.topLeft.y + k⟩ color)
  ++ (List.range size.left.toNat).map (fun k : Nat =>
      CanvasOp.drawLine ⟨rect.topLeft.x + k, rect.topLeft.y⟩
        ⟨rect.topLeft.x + k, rect.bottomRight.y⟩ color)
  ++ (List.range size.right.toNat).map (fun k : Nat =>
      CanvasOp.drawLine ⟨rect.bottomRight.x - k, rect.topLeft.y⟩
        ⟨rect.bottomRight.x - k, rect.bottomRight.y⟩ color)
  ++ (List.range size.bottom.toNat).map (fun k : Nat =>
      CanvasOp.drawLine ⟨rect.topLeft.x, rect.bottomRight.y - k⟩
        ⟨rect.bottomRight.x, rect.bottomRight.y - k⟩ color)

/-- The constraints a Sized node gives its child, as the specification words them: on an
axis whose value is set, min and max are both that value clamped to the parent's range;
on an unset axis they are the parent's min and max. -/
def sizedConstraintsSpec (width height : Option Int) (c : Constraints) : Constraints :=
  ⟨⟨(width.map fun v => clamp v c.min.width c.max.width).getD c.min.width,
    (height.map fun v => clamp v c.min.height c.max.height).getD c.min.height⟩,
   ⟨(width.map fun v => clamp v c.min.width c.max.width).getD c.max.width,
    (height.map fun v => clamp v c.min.height c.max.height).getD c.max.height⟩⟩

/-! ## Theorems -/

/-- C1: under constraints `c` with `c.min <= c.max`, `SizedRenderObject::doLayout` calls the
child's layout exactly once, with constraints `cc` built per axis: on an axis whose value
`v` is set, `cc.min` and `cc.max` are both `clamp v c.min c.max`; on an unset axis they are
`c.min` and `c.max`.  The size returned is the child's. -/
theorem sized_doLayout_child_constraints {ω σ : Type} (ops : ChildOps ω σ)
    (self : SizedRenderObject ω (σ × List (ChildCall ω))) (c : Constraints)
    (_hc : c.WellFormed) :
    ∃ cc : Constraints,
      (SizedRenderObject.doLayout ops.traced c self).2.child.2
          = self.child.2 ++ [ChildCall.layout cc] ∧
      (SizedRenderObject.doLayout ops.traced c self).1 = (ops.layout cc self.child.1).1 ∧
      (∀ v, self.widget.width = some v →
          cc.min.width = clamp v c.min.width c.max.width ∧
          cc.max.width = clamp v c.min.width c.max.width) ∧
      (self.widget.width = none →
          cc.min.width = c.min.width ∧ cc.max.width = c.max.width) ∧
      (∀ v, self.widget.height = some v →
          cc.min.height = clamp v c.min.height c.max.height ∧
          cc.max.height = clamp v c.min.height c.max.height) ∧
      (self.widget.height = none →
          cc.min.height = c.min.height ∧ cc.max.height = c.max.height) := by
  refine ⟨_, rfl, rfl, ?_, ?_, ?_, ?_⟩
  · intro v hv; simp [hv]
  · intro hv; simp [hv]
  · intro v hv; simp [hv]
  · intro hv; simp [hv]

/-- C1, the example of the claim: `Sized(child, width=50, height=none)` under
`{{0,0},{30,100}}` lays out the child once, with min `{30,0}` and max `{30,100}`. -/
theorem sized_doLayout_child_constraints_witness :
    (⟨⟨0, 0⟩, ⟨30, 100⟩⟩ : Constraints).WellFormed ∧
    ∃ cc : Constraints,
      cc = ⟨⟨30, 0⟩, ⟨30, 100⟩⟩ ∧
      (SizedRenderObject.doLayout (staticLeaf fun k => k.max).traced ⟨⟨0, 0⟩, ⟨30, 100⟩⟩
          ⟨{}, ⟨(), some 50, none⟩, ((), [])⟩).2.child.2 = [ChildCall.layout cc] := by
  refine ⟨by decide, ?_⟩
  obtain ⟨cc, h1, _, hw, _, _, hh⟩ :=
    sized_doLayout_child_constraints (staticLeaf fun k => k.max)
      ⟨{}, ⟨(), some 50, none⟩, ((), [])⟩ ⟨⟨0, 0⟩, ⟨30, 100⟩⟩ (by decide)
  refine ⟨cc, ?_, h1⟩
  have h50 := hw 50 rfl
  have hn := hh rfl
  obtain ⟨⟨a, b⟩, ⟨d, e⟩⟩ := cc
  simp only at h50 hn
  simp only [clamp] at h50
  obtain ⟨rfl, rfl⟩ := h50
  obtain ⟨rfl, rfl⟩ := hn
  decide

/-- C2: `CenterRenderObject::doLayout` calls the child's layout exactly once, with
constraints `{{0,0}, c.max}`, and returns per axis `c.max` when the axis is bounded and
the child's size when it is unbounded.  With a child that always returns `{10,10}`:
unbounded constraints give `{10,10}`, constraints `{{0,0},{100,100}}` give `{100,100}`. -/
theorem center_doLayout_size {ω σ : Type} (ops : ChildOps ω σ)
    (self : CenterRenderObject ω (σ × List (ChildCall ω))) (c : Constraints) :
    (CenterRenderObject.doLayout ops.traced c self).2.child.2
        = self.child.2 ++ [ChildCall.layout ⟨⟨0, 0⟩, c.max⟩] ∧
    (CenterRenderObject.doLayout ops.traced c self).1.width
        = (if c.hasBoundedWidth then c.max.width
           else (ops.layout ⟨⟨0, 0⟩, c.max⟩ self.child.1).1.width) ∧
    (CenterRenderObject.doLayout ops.traced c self).1.height
        = (if c.hasBoundedHeight then c.max.height
           else (ops.layout ⟨⟨0, 0⟩, c.max⟩ self.child.1).1.height) ∧
    (CenterRenderObject.doLayout (staticLeaf fun _ => ⟨10, 10⟩)
        ⟨⟨0, 0⟩, ⟨Constraints.unbound, Constraints.unbound⟩⟩ ⟨⟨{}, ⟨()⟩, ()⟩, ⟨0, 0⟩⟩).1
        = ⟨10, 10⟩ ∧
    (CenterRenderObject.doLayout (staticLeaf fun _ => ⟨10, 10⟩)
        ⟨⟨0, 0⟩, ⟨100, 100⟩⟩ ⟨⟨{}, ⟨()⟩, ()⟩, ⟨0, 0⟩⟩).1 = ⟨100, 100⟩ := by
  refine ⟨rfl, ?_, ?_, by decide, by decide⟩
  · cases hw : c.hasBoundedWidth <;> cases hh : c.hasBoundedHeight <;>
      simp [CenterRenderObject.doLayout, ChildOps.traced, hw, hh]
  · cases hw : c.hasBoundedWidth <;> cases hh : c.hasBoundedHeight <;>
      simp [CenterRenderObject.doLayout, ChildOps.traced, hw, hh]

theorem intSub_eq_sub (a b : Int) (h : -2147483648 ≤ a - b ∧ a - b ≤ 2147483647) :
    intSub a b = a - b := by
  unfold intSub
  omega

/-- C3: `PositionedRenderObject::doLayout` calls the child's layout exactly once, with
constraints `{{0,0}, {c.max.width - p.x, c.max.height - p.y}}`, the subtraction being that
of C++ `int`, and returns per axis `c.max` when the axis is bounded and the child's size
when it is unbounded; the position is not added.  Whenever the two differences are
representable as `int` the child's maximum is the exact difference, as for
`Positioned(child, {10,10})` under max `{100,100}`, which lays out the child with max
`{90,90}`; under the unbounded maximum and the position `-1` the subtraction overflows
and the child's maximum wraps to `-2147483648`. -/
theorem positioned_doLayout_size {ω σ : Type} (ops : ChildOps ω σ)
    (self : PositionedRenderObject ω (σ × List (ChildCall ω))) (c : Constraints) :
    (PositionedRenderObject.doLayout ops.traced c self).2.child.2
        = self.child.2 ++ [ChildCall.layout
            ⟨⟨0, 0⟩, ⟨intSub c.max.width self.widget.position.x,
                      intSub c.max.height self.widget.position.y⟩⟩] ∧
    (PositionedRenderObject.doLayout ops.traced c self).1.width
        = (if c.hasBoundedWidth then c.max.width
           else (ops.layout ⟨⟨0, 0⟩, ⟨intSub c.max.width self.widget.position.x,
                  intSub c.max.height self.widget.position.y⟩⟩ self.child.1).1.width) ∧
    (PositionedRenderObject.doLayout ops.traced c self).1.height
        = (if c.hasBoundedHeight then c.max.height
           else (ops.layout ⟨⟨0, 0⟩, ⟨intSub c.max.width self.widget.position.x,
                  intSub c.max.height self.widget.position.y⟩⟩ self.child.1).1.height) ∧
    ((-2147483648 ≤ c.max.width - self.widget.position.x ∧
        c.max.width - self.widget.position.x ≤ 2147483647) ∧
      (-2147483648 ≤ c.max.height - self.widget.position.y ∧
        c.max.height - self.widget.position.y ≤ 2147483647) →
      (PositionedRenderObject.doLayout ops.traced c self).2.child.2
        = self.child.2 ++ [ChildCall.layout
            ⟨⟨0, 0⟩, ⟨c.max.width - self.widget.position.x,
                      c.max.height - self.widget.position.y⟩⟩]) ∧
    (PositionedRenderObject.doLayout (staticLeaf fun k => k.max).traced
        ⟨⟨0, 0⟩, ⟨100, 100⟩⟩ ⟨⟨{}, ⟨(), ⟨10, 10⟩⟩, ((), [])⟩, ⟨0, 0⟩⟩).2.child.2
        = [ChildCall.layout ⟨⟨0, 0⟩, ⟨90, 90⟩⟩] ∧
    (PositionedRenderObject.doLayout (staticLeaf fun k => k.max).traced
        ⟨⟨0, 0⟩, ⟨Constraints.unbound, 100⟩⟩
        ⟨⟨{}, ⟨(), ⟨-1, 10⟩⟩, ((), [])⟩, ⟨0, 0⟩⟩).2.child.2
        = [ChildCall.layout ⟨⟨0, 0⟩, ⟨-2147483648, 90⟩⟩] := by
  refine ⟨rfl, ?_, ?_, ?_, by decide, by decide⟩
  · cases hw : c.hasBoundedWidth <;> cases hh : c.hasBoundedHeight <;>
      simp [PositionedRenderObject.doLayout, ChildOps.traced, hw, hh]
  · cases hw : c.hasBoundedWidth <;> cases hh : c.hasBoundedHeight <;>
      simp [PositionedRenderObject.doLayout, ChildOps.traced, hw, hh]
  · intro h
    rw [← intSub_eq_sub _ _ h.1, ← intSub_eq_sub _ _ h.2]
    rfl

/-- C3, the example of the claim: for `Positioned(child, {10,10})` under max `{100,100}` both
differences are representable, and the child is laid out once, with max `{90,90}`. -/
theorem positioned_doLayout_size_witness :
    ((-2147483648 ≤ (100 : Int) - 10 ∧ (100 : Int) - 10 ≤ 2147483647) ∧
      (-2147483648 ≤ (100 : Int) - 10 ∧ (100 : Int) - 10 ≤ 2147483647)) ∧
    (PositionedRenderObject.doLayout (staticLeaf fun k => k.max).traced
        ⟨⟨0, 0⟩, ⟨100, 100⟩⟩ ⟨⟨{}, ⟨(), ⟨10, 10⟩⟩, ((), [])⟩, ⟨0, 0⟩⟩).2.child.2
        = [] ++ [ChildCall.layout ⟨⟨0, 0⟩, ⟨100 - 10, 100 - 10⟩⟩] :=
  ⟨by decide,
    (positioned_doLayout_size (staticLeaf fun k => k.max)
      ⟨⟨{}, ⟨(), ⟨10, 10⟩⟩, ((), [])⟩, ⟨0, 0⟩⟩ ⟨⟨0, 0⟩, ⟨100, 100⟩⟩).2.2.2.1 (by decide)⟩

/-- C4: Padding with insets `i` calls the child's layout exactly once with `c.inset i` and
returns `c.expand childSize i`.  Border and CircularBorder with size `i`, over the same
base state and child, return the same size and leave the child as Padding does; their
resulting node is either that of Padding (with their own widget) or that node after
`markNeedsDraw()`, and the only layout call their child receives carries `c.inset i`. -/
theorem border_doLayout_sizing_as_padding {ω σ : Type} (ops : ChildOps ω σ)
    (base : RenderObject) (w : ω) (i : Insets) (color : Int) (s : σ)
    (log : List (ChildCall ω)) (c : Constraints) :
    PaddingRenderObject.doLayout ops c ⟨base, ⟨w, i⟩, s⟩
        = (c.expand (ops.layout (c.inset i) s).1 i,
            ⟨base, ⟨w, i⟩, (ops.layout (c.inset i) s).2⟩) ∧
    (PaddingRenderObject.doLayout ops.traced c ⟨base, ⟨w, i⟩, (s, log)⟩).2.child.2
        = log ++ [ChildCall.layout (c.inset i)] ∧
    (BorderRenderObject.doLayout ops c ⟨base, ⟨w, i, color⟩, s⟩).1
        = (PaddingRenderObject.doLayout ops c ⟨base, ⟨w, i⟩, s⟩).1 ∧
    (CircularBorderRenderObject.doLayout ops c ⟨base, ⟨w, i, color⟩, s⟩).1
        = (PaddingRenderObject.doLayout ops c ⟨base, ⟨w, i⟩, s⟩).1 ∧
    ((BorderRenderObject.doLayout ops c ⟨base, ⟨w, i, color⟩, s⟩).2
        = ⟨base, ⟨w, i, color⟩, (PaddingRenderObject.doLayout ops c ⟨base, ⟨w, i⟩, s⟩).2.child⟩ ∨
     (BorderRenderObject.doLayout ops c ⟨base, ⟨w, i, color⟩, s⟩).2
        = SingleChildRenderObject.markNeedsDraw ops true
            ⟨base, ⟨w, i, color⟩,
              (PaddingRenderObject.doLayout ops c ⟨base, ⟨w, i⟩, s⟩).2.child⟩) ∧
    ((CircularBorderRenderObject.doLayout ops c ⟨base, ⟨w, i, color⟩, s⟩).2
        = ⟨base, ⟨w, i, color⟩, (PaddingRenderObject.doLayout ops c ⟨base, ⟨w, i⟩, s⟩).2.child⟩ ∨
     (CircularBorderRenderObject.doLayout ops c ⟨base, ⟨w, i, color⟩, s⟩).2
        = SingleChildRenderObject.markNeedsDraw ops true
            ⟨base, ⟨w, i, color⟩,
              (PaddingRenderObject.doLayout ops c ⟨base, ⟨w, i⟩, s⟩).2.child⟩) ∧
    ((BorderRenderObject.doLayout ops.traced c ⟨base, ⟨w, i, color⟩, (s, log)⟩).2.child.2
        = log ++ [ChildCall.layout (c.inset i)] ∨
     (BorderRenderObject.doLayout ops.traced c ⟨base, ⟨w, i, color⟩, (s, log)⟩).2.child.2
        = log ++ [ChildCall.layout (c.inset i)] ++ [ChildCall.markNeedsDraw true]) ∧
    ((CircularBorderRenderObject.doLayout ops.traced c
          ⟨base, ⟨w, i, color⟩, (s, log)⟩).2.child.2
        = log ++ [ChildCall.layout (c.inset i)] ∨
     (CircularBorderRenderObject.doLayout ops.traced c
          ⟨base, ⟨w, i, color⟩, (s, log)⟩).2.child.2
        = log ++ [ChildCall.layout (c.inset i)] ++ [ChildCall.markNeedsDraw true]) := by
  refine ⟨rfl, rfl, ?_, ?_, ?_, ?_, ?_, ?_⟩
  · simp only [BorderRenderObject.doLayout, PaddingRenderObject.doLayout]
  · simp only [CircularBorderRenderObject.doLayout, PaddingRenderObject.doLayout]
  · simp only [BorderRenderObject.doLayout, PaddingRenderObject.doLayout]
    split
    · exact Or.inr rfl
    · exact Or.inl rfl
  · simp only [CircularBorderRenderObject.doLayout, PaddingRenderObject.doLayout]
    split
    · exact Or.inr rfl
    · exact Or.inl rfl
  · simp only [BorderRenderObject.doLayout]
    split
    · exact Or.inr rfl
    · exact Or.inl rfl
  · simp only [CircularBorderRenderObject.doLayout]
    split
    · exact Or.inr rfl
    · exact Or.inl rfl

/-- C5: for non-negative insets `i` and a size `s` at least as large as the insets, Padding
with insets `i` laid out under `{{0,0}, s}` over a child that returns the max of the
constraints it is given returns own size `s`; and for all constraints `c`,
`expand(inset(c, i).max, i) = c.max`. -/
theorem padding_inset_expand_roundtrip {ω σ : Type} (ops : ChildOps ω σ)
    (self : PaddingRenderObject ω σ) (s : Size)
    (_hi : 0 ≤ self.widget.insets.top ∧ 0 ≤ self.widget.insets.left ∧
      0 ≤ self.widget.insets.right ∧ 0 ≤ self.widget.insets.bottom)
    (_hs : self.widget.insets.left + self.widget.insets.right ≤ s.width ∧
      self.widget.insets.top + self.widget.insets.bottom ≤ s.height)
    (hchild : ∀ k st, (ops.layout k st).1 = k.max) :
    (PaddingRenderObject.doLayout ops ⟨⟨0, 0⟩, s⟩ self).1 = s ∧
    ∀ c : Constraints, c.expand (c.inset self.widget.insets).max self.widget.insets = c.max := by
  have key : ∀ c : Constraints,
      c.expand (c.inset self.widget.insets).max self.widget.insets = c.max := by
    intro c
    obtain ⟨cmin, ⟨mw, mh⟩⟩ := c
    simp only [Constraints.expand, Constraints.inset, Size.mk.injEq]
    constructor <;> ring
  refine ⟨?_, key⟩
  simp only [PaddingRenderObject.doLayout, hchild]
  exact key ⟨⟨0, 0⟩, s⟩

/-- C5, an instance: insets `all(5)` and size `{50,50}` over a child that fills its
constraints. -/
theorem padding_inset_expand_roundtrip_witness :
    ((0 : Int) ≤ (Insets.all 5).top ∧ (0 : Int) ≤ (Insets.all 5).left ∧
      (0 : Int) ≤ (Insets.all 5).right ∧ (0 : Int) ≤ (Insets.all 5).bottom) ∧
    ((Insets.all 5).left + (Insets.all 5).right ≤ (50 : Int) ∧
      (Insets.all 5).top + (Insets.all 5).bottom ≤ (50 : Int)) ∧
    (∀ (k : Constraints) (st : Unit), ((staticLeaf fun k => k.max).layout k st).1 = k.max) ∧
    (PaddingRenderObject.doLayout (staticLeaf fun k => k.max) ⟨⟨0, 0⟩, ⟨50, 50⟩⟩
        ⟨{}, ⟨(), Insets.all 5⟩, ()⟩).1 = ⟨50, 50⟩ :=
  ⟨by decide, by decide, fun _ _ => rfl,
    (padding_inset_expand_roundtrip (staticLeaf fun k => k.max)
      ⟨{}, ⟨(), Insets.all 5⟩, ()⟩ ⟨50, 50⟩ (by decide) (by decide) (fun _ _ => rfl)).1⟩

/-! ### What the border painters add to a canvas -/

theorem drawLineLoop_eq_append (color : Int) (dir : Point) (n : Nat) (a b : Point)
    (canvas : Canvas) :
    BorderRenderObject.drawLineLoop color dir n a b canvas
      = canvas ++ BorderRenderObject.drawLineLoop color dir n a b [] := by
  induction n generalizing a b canvas with
  | zero => simp [BorderRenderObject.drawLineLoop]
  | succ n ih =>
    simp only [BorderRenderObject.drawLineLoop]
    rw [ih (a + dir) (b + dir) (canvas ++ [CanvasOp.drawLine a b color]),
      ih (a + dir) (b + dir) ([] ++ [CanvasOp.drawLine a b color])]
    simp

theorem drawLine_eq_append (color : Int) (a b dir : Point) (size : Int) (canvas : Canvas) :
    BorderRenderObject.drawLine color a b dir size canvas
      = canvas ++ BorderRenderObject.drawLine color a b dir size [] :=
  drawLineLoop_eq_append color dir size.toNat a b canvas

theorem drawBands_eq_append (color : Int) (size : Insets) (rect : Rect) (canvas : Canvas) :
    BorderRenderObject.drawBands color size rect canvas
      = canvas ++ BorderRenderObject.drawBands color size rect [] := by
  simp only [BorderRenderObject.drawBands]
  rw [drawLine_eq_append color _ _ _ size.bottom
        (BorderRenderObject.drawLine color _ _ _ size.right _),
    drawLine_eq_append color _ _ _ size.right
        (BorderRenderObject.drawLine color _ _ _ size.left _),
    drawLine_eq_append color _ _ _ size.left
        (BorderRenderObject.drawLine color _ _ _ size.top _),
    drawLine_eq_append color _ _ _ size.top canvas]
  conv_rhs =>
    rw [drawLine_eq_append color _ _ _ size.bottom
          (BorderRenderObject.drawLine color _ _ _ size.right _),
      drawLine_eq_append color _ _ _ size.right
          (BorderRenderObject.drawLine color _ _ _ size.left _),
      drawLine_eq_append color _ _ _ size.left
          (BorderRenderObject.drawLine color _ _ _ size.top _)]
  simp [List.append_assoc]

/-- C9: `ClearedRenderObject::doDraw` draws the child once, over `rect` itself.  On a full
draw the child finds the canvas with the fill of `rect` in the widget's color already
done, and the region returned is the entry for `rect` merged with the child's region; on
any other draw the child finds the canvas as it was and the region returned is the
child's.  Nothing is done to the canvas after the child has drawn. -/
theorem cleared_doDraw_region {ω σ : Type} (ops : ChildOps ω σ)
    (base : RenderObject) (w : ω) (color : Int) (s : σ)
    (log : List (ChildCall ω)) (rect : Rect) (canvas : Canvas) :
    (ClearedRenderObject.doDraw ops.traced rect canvas ⟨base, ⟨w, color⟩, (s, log)⟩).2.2.child.2
        = log ++ [ChildCall.draw rect
            (if base.isFullDraw then canvas ++ [CanvasOp.set rect color] else canvas)] ∧
    ClearedRenderObject.doDraw ops rect canvas ⟨base, ⟨w, color⟩, s⟩
        = (if base.isFullDraw then
            (UpdateRegion.ofRect rect
                ∪ (ops.draw rect (canvas ++ [CanvasOp.set rect color]) s).1,
              (ops.draw rect (canvas ++ [CanvasOp.set rect color]) s).2.1,
              ⟨base, ⟨w, color⟩, (ops.draw rect (canvas ++ [CanvasOp.set rect color]) s).2.2⟩)
           else
            ((ops.draw rect canvas s).1, (ops.draw rect canvas s).2.1,
              ⟨base, ⟨w, color⟩, (ops.draw rect canvas s).2.2⟩)) := by
  constructor
  · cases h : base.isFullDraw <;> simp [ClearedRenderObject.doDraw, h, ChildOps.traced]
  · cases h : base.isFullDraw <;> simp [ClearedRenderObject.doDraw, h]

/-- C10: the `doDraw` of Center, Padding, Sized and Positioned calls the child's draw exactly
once, on the canvas as received, and returns the child's region and the canvas as the
child left it.  The child's rect is `insets.shrink(rect)` for Padding, `rect` for Sized,
and for Positioned the rect from `rect.topLeft + position` to that point plus
`childSize.toPoint()`; a position `(10,10)` puts the child's top-left `(10,10)` off the
parent's. -/
theorem geometry_doDraw_delegates {ω σ : Type} (ops : ChildOps ω σ)
    (base : RenderObject) (w : ω) (s : σ) (log : List (ChildCall ω))
    (rect : Rect) (canvas : Canvas)
    (i : Insets) (width height : Option Int) (position : Point) (childSize : Size) :
    -- Center
    ((∃ childRect : Rect,
        (CenterRenderObject.doDraw ops.traced rect canvas
            ⟨⟨base, ⟨w⟩, (s, log)⟩, childSize⟩).2.2.child.2
          = log ++ [ChildCall.draw childRect canvas] ∧
        CenterRenderObject.doDraw ops rect canvas ⟨⟨base, ⟨w⟩, s⟩, childSize⟩
          = ((ops.draw childRect canvas s).1, (ops.draw childRect canvas s).2.1,
              ⟨⟨base, ⟨w⟩, (ops.draw childRect canvas s).2.2⟩, childSize⟩))) ∧
    -- Padding
    ((PaddingRenderObject.doDraw ops.traced rect canvas ⟨base, ⟨w, i⟩, (s, log)⟩).2.2.child.2
        = log ++ [ChildCall.draw (i.shrink rect) canvas] ∧
      PaddingRenderObject.doDraw ops rect canvas ⟨base, ⟨w, i⟩, s⟩
        = ((ops.draw (i.shrink rect) canvas s).1, (ops.draw (i.shrink rect) canvas s).2.1,
            ⟨base, ⟨w, i⟩, (ops.draw (i.shrink rect) canvas s).2.2⟩)) ∧
    -- Sized
    ((SizedRenderObject.doDraw ops.traced rect canvas
          ⟨base, ⟨w, width, height⟩, (s, log)⟩).2.2.child.2
        = log ++ [ChildCall.draw rect canvas] ∧
      SizedRenderObject.doDraw ops rect canvas ⟨base, ⟨w, width, height⟩, s⟩
        = ((ops.draw rect canvas s).1, (ops.draw rect canvas s).2.1,
            ⟨base, ⟨w, width, height⟩, (ops.draw rect canvas s).2.2⟩)) ∧
    -- Positioned
    ((PositionedRenderObject.doDraw ops.traced rect canvas
          ⟨⟨base, ⟨w, position⟩, (s, log)⟩, childSize⟩).2.2.child.2
        = log ++ [ChildCall.draw
            ⟨rect.topLeft + position, rect.topLeft + position + childSize.toPoint⟩ canvas] ∧
      PositionedRenderObject.doDraw ops rect canvas ⟨⟨base, ⟨w, position⟩, s⟩, childSize⟩
        = ((ops.draw ⟨rect.topLeft + position, rect.topLeft + position + childSize.toPoint⟩
              canvas s).1,
            (ops.draw ⟨rect.topLeft + position, rect.topLeft + position + childSize.toPoint⟩
              canvas s).2.1,
            ⟨⟨base, ⟨w, position⟩,
              (ops.draw ⟨rect.topLeft + position, rect.topLeft + position + childSize.toPoint⟩
                canvas s).2.2⟩, childSize⟩)) ∧
    -- Positioned at (10,10)
    (PositionedRenderObject.doDraw (staticLeaf fun k => k.max).traced ⟨⟨5, 7⟩, ⟨100, 100⟩⟩ []
          ⟨⟨{}, ⟨(), ⟨10, 10⟩⟩, ((), [])⟩, ⟨20, 30⟩⟩).2.2.child.2
        = [ChildCall.draw ⟨⟨15, 17⟩, ⟨35, 47⟩⟩ []] :=
  ⟨⟨_, rfl, rfl⟩, ⟨rfl, rfl⟩, ⟨rfl, rfl⟩, ⟨rfl, rfl⟩, rfl⟩

/-! ### Update of a Border -/

/-- C7: a Border node without dirty flag, over a child that ignores an update with its
unchanged configuration and, being clean, draws nothing, is updated with a widget of the
same size and another color.  The update sets the node's own needs-draw flag, not the
full-draw flag and not needs-layout, and the child receives the update call and no mark.
The following draw over `rect` draws the child once over the shrunk rect, adds the border
bands to the canvas and returns the region with the single entry `(rect, DU)`. -/
theorem border_color_update_isolation {ω σ : Type} (ops : ChildOps ω σ)
    (size0 : Size) (old new : Border ω) (s : σ) (log : List (ChildCall ω))
    (rect : Rect) (canvas : Canvas)
    (hsize : new.size = old.size) (hcolor : new.color ≠ old.color)
    (hupd : ops.update new.child s = s)
    (hclean : ∀ r cv, ops.draw r cv s = (∅, cv, s)) :
    BorderRenderObject.update ops.traced new ⟨⟨false, false, false, size0⟩, old, (s, log)⟩
      = ⟨⟨false, true, false, size0⟩, new, (s, log ++ [ChildCall.update new.child])⟩ ∧
    BorderRenderObject.draw ops.traced rect canvas
        (BorderRenderObject.update ops.traced new
          ⟨⟨false, false, false, size0⟩, old, (s, log)⟩)
      = ({(rect, Waveform.DU)},
          canvas ++ BorderRenderObject.drawBands new.color new.size rect [],
          ⟨⟨false, false, false, size0⟩, new,
            (s, log ++ [ChildCall.update new.child]
                  ++ [ChildCall.draw (new.size.shrink rect) canvas])⟩) := by
  have hu : BorderRenderObject.update ops.traced new
        ⟨⟨false, false, false, size0⟩, old, (s, log)⟩
      = ⟨⟨false, true, false, size0⟩, new, (s, log ++ [ChildCall.update new.child])⟩ := by
    simp [BorderRenderObject.update, hsize, hcolor.symm,
      SingleChildRenderObject.markNeedsDrawSelf, RenderObject.markNeedsDraw,
      ChildOps.traced, hupd]
  refine ⟨hu, ?_⟩
  rw [hu]
  simp only [BorderRenderObject.draw, RenderObject.draw, SingleChildRenderObject.getNeedsDraw,
    RenderObject.getNeedsDraw, Bool.true_or, if_true, BorderRenderObject.doDraw,
    ChildOps.traced, hclean, SingleChildRenderObject.setBase, UpdateRegion.mk,
    Finset.empty_union]
  rw [drawBands_eq_append new.color new.size rect canvas]

/-- C7, an instance: a Border of thickness 2 around a stateless leaf changes its color
from 0 to 1. -/
theorem border_color_update_isolation_witness :
    Insets.all 2 = Insets.all 2 ∧ (1 : Int) ≠ 0 ∧
    (staticLeaf fun k => k.max).update () () = () ∧
    (∀ (r : Rect) (cv : Canvas), (staticLeaf fun k => k.max).draw r cv () = (∅, cv, ())) ∧
    (BorderRenderObject.draw (staticLeaf fun k => k.max).traced ⟨⟨0, 0⟩, ⟨50, 50⟩⟩ []
        (BorderRenderObject.update (staticLeaf fun k => k.max).traced ⟨(), Insets.all 2, 1⟩
          ⟨⟨false, false, false, ⟨50, 50⟩⟩, ⟨(), Insets.all 2, 0⟩, ((), [])⟩)).1
      = {(⟨⟨0, 0⟩, ⟨50, 50⟩⟩, Waveform.DU)} :=
  ⟨rfl, by decide, rfl, fun _ _ => rfl,
    congrArg Prod.fst
      (border_color_update_isolation (staticLeaf fun k => k.max) ⟨50, 50⟩
        ⟨(), Insets.all 2, 0⟩ ⟨(), Insets.all 2, 1⟩ () [] ⟨⟨0, 0⟩, ⟨50, 50⟩⟩ []
        rfl (by decide) rfl (fun _ _ => rfl)).2⟩

/-- C8, the code at a failing input: a fresh `Border(leaf, size=all(2))` is laid out under
the tight constraints `{{100,100},{100,100}}` and drawn over `(0,0)-(100,100)`, which
leaves it clean (`n2`); it is then updated with `Border(leaf, size=all(5))` (`n3`) and laid
out again (`n4`).  The update marks the node needs-layout and the layout pass lays out the
child with the constraints inset by the new size, `{{90,90},{90,90}}`; but the size
returned is `{100,100}` as before, so `doLayout` does not mark the node for drawing: its
own needs-draw flag is clear after the pass, and the following draw paints nothing and
returns the empty region. -/
theorem border_size_update_not_redrawn :
    ∃ n2 n3 n4 : BorderRenderObject Unit (Unit × List (ChildCall Unit)),
      n2 = (BorderRenderObject.draw (staticLeaf fun k => k.max).traced
              ⟨⟨0, 0⟩, ⟨100, 100⟩⟩ []
              (BorderRenderObject.layout (staticLeaf fun k => k.max).traced
                ⟨⟨100, 100⟩, ⟨100, 100⟩⟩ ⟨{}, ⟨(), Insets.all 2, 0⟩, ((), [])⟩).2).2.2 ∧
      n2.base = ⟨false, false, false, ⟨100, 100⟩⟩ ∧
      n3 = BorderRenderObject.update (staticLeaf fun k => k.max).traced
              ⟨(), Insets.all 5, 0⟩ n2 ∧
      n3.base.needsLayout = true ∧
      n4 = (BorderRenderObject.layout (staticLeaf fun k => k.max).traced
              ⟨⟨100, 100⟩, ⟨100, 100⟩⟩ n3).2 ∧
      n4.child.2 = n3.child.2 ++ [ChildCall.layout ⟨⟨90, 90⟩, ⟨90, 90⟩⟩] ∧
      n4.widget.size = Insets.all 5 ∧
      n4.base.needsDraw = false ∧
      (BorderRenderObject.doDraw (staticLeaf fun k => k.max).traced
          ⟨⟨0, 0⟩, ⟨100, 100⟩⟩ [] n4).2.1 = [] ∧
      (BorderRenderObject.draw (staticLeaf fun k => k.max).traced
          ⟨⟨0, 0⟩, ⟨100, 100⟩⟩ [] n4).1 = ∅ ∧
      (BorderRenderObject.draw (staticLeaf fun k => k.max).traced
          ⟨⟨0, 0⟩, ⟨100, 100⟩⟩ [] n4).2.1 = [] :=
  ⟨_, _, _, rfl, by decide, rfl, by decide, rfl, by decide, by decide, by decide, by decide,
    by decide, by decide⟩

/-! ### Update of the seven primitives -/

/-- C11: for each of the seven render objects, `update` leaves the node bound to the new
widget and calls `newWidget.child.update` on the existing child exactly once, as the last
thing it does, whether or not a field of the node changed; the marks the child receives
before it depend on the comparison of the new fields with those of the widget stored
before. -/
theorem update_rebinds_and_delegates {ω σ : Type} (ops : ChildOps ω σ) (base : RenderObject)
    (s : σ) (log : List (ChildCall ω)) (childSize : Size)
    (oc nc : Center ω) (op np : Padding ω) (ocb ncb : CircularBorder ω) (ob nb : Border ω)
    (os ns : Sized ω) (ocl ncl : Cleared ω) (opo npo : Positioned ω) :
    ((CenterRenderObject.update ops.traced nc ⟨⟨base, oc, (s, log)⟩, childSize⟩).widget = nc ∧
     (CenterRenderObject.update ops.traced nc ⟨⟨base, oc, (s, log)⟩, childSize⟩).child.2
        = log ++ [ChildCall.update nc.child]) ∧
    ((PaddingRenderObject.update ops.traced np ⟨base, op, (s, log)⟩).widget = np ∧
     (PaddingRenderObject.update ops.traced np ⟨base, op, (s, log)⟩).child.2
        = log ++ (if np.insets ≠ op.insets
                  then [ChildCall.markNeedsLayout, ChildCall.markNeedsDraw true] else [])
              ++ [ChildCall.update np.child]) ∧
    ((CircularBorderRenderObject.update ops.traced ncb ⟨base, ocb, (s, log)⟩).widget = ncb ∧
     (CircularBorderRenderObject.update ops.traced ncb ⟨base, ocb, (s, log)⟩).child.2
        = log ++ (if ocb.size ≠ ncb.size then [ChildCall.markNeedsLayout] else [])
              ++ [ChildCall.update ncb.child]) ∧
    ((BorderRenderObject.update ops.traced nb ⟨base, ob, (s, log)⟩).widget = nb ∧
     (BorderRenderObject.update ops.traced nb ⟨base, ob, (s, log)⟩).child.2
        = log ++ (if ob.size ≠ nb.size then [ChildCall.markNeedsLayout] else [])
              ++ [ChildCall.update nb.child]) ∧
    ((SizedRenderObject.update ops.traced ns ⟨base, os, (s, log)⟩).widget = ns ∧
     (SizedRenderObject.update ops.traced ns ⟨base, os, (s, log)⟩).child.2
        = log ++ (if ns.width ≠ os.width ∨ ns.height ≠ os.height
                  then [ChildCall.markNeedsLayout, ChildCall.markNeedsDraw true] else [])
              ++ [ChildCall.update ns.child]) ∧
    ((ClearedRenderObject.update ops.traced ncl ⟨base, ocl, (s, log)⟩).widget = ncl ∧
     (ClearedRenderObject.update ops.traced ncl ⟨base, ocl, (s, log)⟩).child.2
        = log ++ (if ncl.color ≠ ocl.color then [ChildCall.markNeedsDraw true] else [])
              ++ [ChildCall.update ncl.child]) ∧
    ((PositionedRenderObject.update ops.traced npo
        ⟨⟨base, opo, (s, log)⟩, childSize⟩).widget = npo ∧
     (PositionedRenderObject.update ops.traced npo ⟨⟨base, opo, (s, log)⟩, childSize⟩).child.2
        = log ++ (if npo.position ≠ opo.position
                  then [ChildCall.markNeedsLayout, ChildCall.markNeedsDraw true] else [])
              ++ [ChildCall.update npo.child]) := by
  refine ⟨⟨rfl, rfl⟩, ⟨rfl, ?_⟩, ⟨rfl, ?_⟩, ⟨rfl, ?_⟩, ⟨rfl, ?_⟩, ⟨rfl, ?_⟩, ⟨rfl, ?_⟩⟩
  · by_cases h : np.insets = op.insets <;>
      simp [PaddingRenderObject.update, h, SingleChildRenderObject.markNeedsLayout,
        SingleChildRenderObject.markNeedsDraw, ChildOps.traced]
  · by_cases h : ocb.size = ncb.size <;> by_cases h2 : ocb.color = ncb.color <;>
      simp [CircularBorderRenderObject.update, h, h2, SingleChildRenderObject.markNeedsLayout,
        SingleChildRenderObject.markNeedsDrawSelf, ChildOps.traced]
  · by_cases h : ob.size = nb.size <;> by_cases h2 : ob.color = nb.color <;>
      simp [BorderRenderObject.update, h, h2, SingleChildRenderObject.markNeedsLayout,
        SingleChildRenderObject.markNeedsDrawSelf, ChildOps.traced]
  · by_cases h : ns.width ≠ os.width ∨ ns.height ≠ os.height <;>
      simp [SizedRenderObject.update, h, SingleChildRenderObject.markNeedsLayout,
        SingleChildRenderObject.markNeedsDraw, ChildOps.traced]
  · by_cases h : ncl.color = ocl.color <;>
      simp [ClearedRenderObject.update, h, SingleChildRenderObject.markNeedsDraw,
        ChildOps.traced]
  · by_cases h : npo.position = opo.position <;>
      simp [PositionedRenderObject.update, h, SingleChildRenderObject.markNeedsLayout,
        SingleChildRenderObject.markNeedsDrawSelf, ChildOps.traced]

/-- C12: the dirty flags of the node after `update`.  The needs-layout flag becomes set
exactly when a size-affecting field differs (Padding.insets, CircularBorder.size,
Border.size, Sized.width or height, Positioned.position) and is otherwise left as it was;
a differing color of CircularBorder, Border or Cleared sets needs-draw and leaves
needs-layout alone; when no field of the node differs, and always for Center, the base
state of the node is unchanged. -/
theorem update_dirty_flags {ω σ : Type} (ops : ChildOps ω σ) (base : RenderObject)
    (s : σ) (childSize : Size)
    (oc nc : Center ω) (op np : Padding ω) (ocb ncb : CircularBorder ω) (ob nb : Border ω)
    (os ns : Sized ω) (ocl ncl : Cleared ω) (opo npo : Positioned ω) :
    (CenterRenderObject.update ops nc ⟨⟨base, oc, s⟩, childSize⟩).base = base ∧
    (PaddingRenderObject.update ops np ⟨base, op, s⟩).base
      = ⟨base.needsLayout || decide (np.insets ≠ op.insets),
         base.needsDraw || decide (np.insets ≠ op.insets),
         base.needsFullDraw || decide (np.insets ≠ op.insets), base.size⟩ ∧
    (CircularBorderRenderObject.update ops ncb ⟨base, ocb, s⟩).base
      = ⟨base.needsLayout || decide (ocb.size ≠ ncb.size),
         base.needsDraw || decide (ocb.color ≠ ncb.color),
         base.needsFullDraw, base.size⟩ ∧
    (BorderRenderObject.update ops nb ⟨base, ob, s⟩).base
      = ⟨base.needsLayout || decide (ob.size ≠ nb.size),
         base.needsDraw || decide (ob.color ≠ nb.color),
         base.needsFullDraw, base.size⟩ ∧
    (SizedRenderObject.update ops ns ⟨base, os, s⟩).base
      = ⟨base.needsLayout || decide (ns.width ≠ os.width ∨ ns.height ≠ os.height),
         base.needsDraw || decide (ns.width ≠ os.width ∨ ns.height ≠ os.height),
         base.needsFullDraw || decide (ns.width ≠ os.width ∨ ns.height ≠ os.height),
         base.size⟩ ∧
    (ClearedRenderObject.update ops ncl ⟨base, ocl, s⟩).base
      = ⟨base.needsLayout,
         base.needsDraw || decide (ncl.color ≠ ocl.color),
         base.needsFullDraw || decide (ncl.color ≠ ocl.color), base.size⟩ ∧
    (PositionedRenderObject.update ops npo ⟨⟨base, opo, s⟩, childSize⟩).base
      = ⟨base.needsLayout || decide (npo.position ≠ opo.position),
         base.needsDraw || decide (npo.position ≠ opo.position),
         base.needsFullDraw, base.size⟩ := by
  obtain ⟨nl, nd, nf, sz⟩ := base
  refine ⟨rfl, ?_, ?_, ?_, ?_, ?_, ?_⟩
  · by_cases h : np.insets = op.insets <;>
      simp [PaddingRenderObject.update, h, SingleChildRenderObject.markNeedsLayout,
        SingleChildRenderObject.markNeedsDraw, RenderObject.markNeedsLayout,
        RenderObject.markNeedsDraw]
  · by_cases h : ocb.size = ncb.size <;> by_cases h2 : ocb.color = ncb.color <;>
      simp [CircularBorderRenderObject.update, h, h2, SingleChildRenderObject.markNeedsLayout,
        SingleChildRenderObject.markNeedsDrawSelf, RenderObject.markNeedsLayout,
        RenderObject.markNeedsDraw]
  · by_cases h : ob.size = nb.size <;> by_cases h2 : ob.color = nb.color <;>
      simp [BorderRenderObject.update, h, h2, SingleChildRenderObject.markNeedsLayout,
        SingleChildRenderObject.markNeedsDrawSelf, RenderObject.markNeedsLayout,
        RenderObject.markNeedsDraw]
  · by_cases h : ns.width ≠ os.width ∨ ns.height ≠ os.height <;>
      simp [SizedRenderObject.update, h, SingleChildRenderObject.markNeedsLayout,
        SingleChildRenderObject.markNeedsDraw, RenderObject.markNeedsLayout,
        RenderObject.markNeedsDraw]
  · by_cases h : ncl.color = ocl.color <;>
      simp [ClearedRenderObject.update, h, SingleChildRenderObject.markNeedsDraw,
        RenderObject.markNeedsDraw]
  · by_cases h : npo.position = opo.position <;>
      simp [PositionedRenderObject.update, h, SingleChildRenderObject.markNeedsLayout,
        SingleChildRenderObject.markNeedsDrawSelf, RenderObject.markNeedsLayout,
        RenderObject.markNeedsDraw]

/-! ### Centering -/

theorem tdiv_two_eq_sign_mul (d : Int) :
    Int.tdiv d 2 = d.sign * ((d.natAbs / 2 : Nat) : Int) := by
  cases d with
  | ofNat n =>
    cases n with
    | zero => rfl
    | succ n =>
      show Int.ofNat ((n + 1) / 2) = Int.sign (Int.ofNat (n + 1)) * _
      simp only [Int.sign, Int.natAbs_ofNat, one_mul]
      rfl
  | negSucc n =>
    show -Int.ofNat ((n + 1) / 2) = Int.sign (Int.negSucc n) * _
    simp [Int.sign]

/-- C13: for every rect and every child size, `CenterRenderObject::doDraw` draws the child,
once, over the rect whose top-left is
`rect.topLeft + ((rect.width() - childSize.width) / 2, (rect.height() - childSize.height) / 2)`
and whose bottom-right is that point plus `childSize.toPoint()`.  The division truncates
toward zero: the offset has the sign of the difference and half its magnitude, rounded
down, so that a child of 15x15 in a rect of 10x10 gets the offset `(-2,-2)`.  When the
child is no wider than the rect, the leading gap (the offset) is at most the trailing gap
(what remains of the rect's extent after offset and child, which is the distance between
the two far edges), and the two differ by at most 1; likewise for the height. -/
theorem center_doDraw_offset {ω σ : Type} (ops : ChildOps ω σ) (base : RenderObject)
    (w : Center ω) (s : σ) (log : List (ChildCall ω)) (rect : Rect) (canvas : Canvas)
    (childSize : Size) :
    (CenterRenderObject.doDraw ops.traced rect canvas ⟨⟨base, w, (s, log)⟩, childSize⟩).2.2.child.2
      = log ++ [ChildCall.draw
          ⟨rect.topLeft + ⟨Int.tdiv (rect.width - childSize.width) 2, Int.tdiv (rect.height - childSize.height) 2⟩,
           rect.topLeft + ⟨Int.tdiv (rect.width - childSize.width) 2, Int.tdiv (rect.height - childSize.height) 2⟩ + childSize.toPoint⟩ canvas] ∧
    Int.tdiv (rect.width - childSize.width) 2
      = (rect.width - childSize.width).sign * (((rect.width - childSize.width).natAbs / 2 : Nat) : Int) ∧
    Int.tdiv (rect.height - childSize.height) 2
      = (rect.height - childSize.height).sign * (((rect.height - childSize.height).natAbs / 2 : Nat) : Int) ∧
    (CenterRenderObject.doDraw (staticLeaf fun k => k.max).traced ⟨⟨0, 0⟩, ⟨10, 10⟩⟩ []
        ⟨⟨{}, ⟨()⟩, ((), [])⟩, ⟨15, 15⟩⟩).2.2.child.2
      = [ChildCall.draw ⟨⟨-2, -2⟩, ⟨13, 13⟩⟩ []] ∧
    (childSize.width ≤ rect.width →
      Int.tdiv (rect.width - childSize.width) 2 ≤ rect.width - childSize.width - Int.tdiv (rect.width - childSize.width) 2 ∧
      rect.width - childSize.width - Int.tdiv (rect.width - childSize.width) 2 ≤ Int.tdiv (rect.width - childSize.width) 2 + 1 ∧
      rect.bottomRight.x
          - (rect.topLeft + ⟨Int.tdiv (rect.width - childSize.width) 2, Int.tdiv (rect.height - childSize.height) 2⟩ + childSize.toPoint).x
        = rect.width - childSize.width - Int.tdiv (rect.width - childSize.width) 2) ∧
    (childSize.height ≤ rect.height →
      Int.tdiv (rect.height - childSize.height) 2 ≤ rect.height - childSize.height - Int.tdiv (rect.height - childSize.height) 2 ∧
      rect.height - childSize.height - Int.tdiv (rect.height - childSize.height) 2 ≤ Int.tdiv (rect.height - childSize.height) 2 + 1 ∧
      rect.bottomRight.y
          - (rect.topLeft + ⟨Int.tdiv (rect.width - childSize.width) 2, Int.tdiv (rect.height - childSize.height) 2⟩ + childSize.toPoint).y
        = rect.height - childSize.height - Int.tdiv (rect.height - childSize.height) 2) := by
  have px : ∀ a b : Point, (a + b).x = a.x + b.x := fun _ _ => rfl
  have py : ∀ a b : Point, (a + b).y = a.y + b.y := fun _ _ => rfl
  refine ⟨rfl, tdiv_two_eq_sign_mul _, tdiv_two_eq_sign_mul _, by decide, ?_, ?_⟩
  · intro hw
    have hx : (0 : Int) ≤ rect.width - childSize.width := by omega
    have ex : Int.tdiv (rect.width - childSize.width) 2 = (rect.width - childSize.width) / 2 := Int.tdiv_eq_ediv hx (by decide)
    refine ⟨?_, ?_, ?_⟩
    · rw [ex]; omega
    · rw [ex]; omega
    · rw [px, px, ex]; simp only [Size.toPoint, Rect.width]; omega
  · intro hh
    have hy : (0 : Int) ≤ rect.height - childSize.height := by omega
    have ey : Int.tdiv (rect.height - childSize.height) 2 = (rect.height - childSize.height) / 2 := Int.tdiv_eq_ediv hy (by decide)
    refine ⟨?_, ?_, ?_⟩
    · rw [ey]; omega
    · rw [ey]; omega
    · rw [py, py, ey]; simp only [Size.toPoint, Rect.height]; omega

/-- C13, the example of the claim: a 100x100 rect and a 10x10 child give the offset
`(45,45)`: the child is drawn over `(45,45)-(55,55)`, with a gap of 45 on either side. -/
theorem center_doDraw_offset_witness :
    (⟨10, 10⟩ : Size).width ≤ (⟨⟨0, 0⟩, ⟨100, 100⟩⟩ : Rect).width ∧
    (⟨10, 10⟩ : Size).height ≤ (⟨⟨0, 0⟩, ⟨100, 100⟩⟩ : Rect).height ∧
    (CenterRenderObject.doDraw (staticLeaf fun k => k.max).traced ⟨⟨0, 0⟩, ⟨100, 100⟩⟩ []
        ⟨⟨{}, ⟨()⟩, ((), [])⟩, ⟨10, 10⟩⟩).2.2.child.2
      = [ChildCall.draw ⟨⟨45, 45⟩, ⟨55, 55⟩⟩ []] ∧
    ((45 : Int) ≤ 100 - 10 - 45 ∧ (100 : Int) - 10 - 45 ≤ 45 + 1 ∧
      (100 : Int) - 55 = 100 - 10 - 45) ∧
    ((45 : Int) ≤ 100 - 10 - 45 ∧ (100 : Int) - 10 - 45 ≤ 45 + 1 ∧
      (100 : Int) - 55 = 100 - 10 - 45) :=
  ⟨by decide, by decide,
    (center_doDraw_offset (staticLeaf fun k => k.max) {} ⟨()⟩ () [] ⟨⟨0, 0⟩, ⟨100, 100⟩⟩ []
      ⟨10, 10⟩).1.trans (by decide),
    (center_doDraw_offset (staticLeaf fun k => k.max) {} ⟨()⟩ () [] ⟨⟨0, 0⟩, ⟨100, 100⟩⟩ []
      ⟨10, 10⟩).2.2.2.2.1 (by decide),
    (center_doDraw_offset (staticLeaf fun k => k.max) {} ⟨()⟩ () [] ⟨⟨0, 0⟩, ⟨100, 100⟩⟩ []
      ⟨10, 10⟩).2.2.2.2.2 (by decide)⟩

/-! ### The end-to-end scenario -/

theorem scenario_layout_fresh {ω σ : Type} (ops : ChildOps ω σ) (leaf : ω) (s0 : σ)
    (c : Constraints) :
    ∃ (sp sb sc : Size) (s1 : σ),
      ((scenarioOps ops).layout c (scenarioCreate leaf s0)).2
        = ⟨⟨false, true, true, sp⟩, scenario leaf,
            ⟨⟨false, true, true, sb⟩, (scenario leaf).child,
              ⟨⟨false, true, true, sc⟩, (scenario leaf).child.child, s1⟩⟩⟩ := by
  simp only [scenarioOps, PaddingRenderObject.ops, BorderRenderObject.ops,
    ClearedRenderObject.ops, scenarioCreate, SingleChildRenderObject.create,
    PaddingRenderObject.layout, BorderRenderObject.layout, ClearedRenderObject.layout,
    RenderObject.layout, SingleChildRenderObject.getNeedsLayout,
    RenderObject.getNeedsLayout,
    Bool.true_or, if_true, PaddingRenderObject.doLayout, BorderRenderObject.doLayout,
    ClearedRenderObject.doLayout, SingleChildRenderObject.setBase]
  split_ifs
  · exact ⟨_, _, _, _, rfl⟩
  · exact ⟨_, _, _, _, rfl⟩

theorem scenario_draw_dirty {ω σ : Type} (ops : ChildOps ω σ) (leaf : ω)
    (sp sb sc : Size) (s1 : σ) (canvas : Canvas) :
    (scenarioOps ops).draw scenarioRect canvas
        ⟨⟨false, true, true, sp⟩, scenario leaf,
            ⟨⟨false, true, true, sb⟩, (scenario leaf).child,
              ⟨⟨false, true, true, sc⟩, (scenario leaf).child.child, s1⟩⟩⟩
      = (UpdateRegion.ofRect ⟨⟨7, 7⟩, ⟨43, 43⟩⟩
              ∪ (ops.draw ⟨⟨7, 7⟩, ⟨43, 43⟩⟩
                  (canvas ++ [CanvasOp.set ⟨⟨7, 7⟩, ⟨43, 43⟩⟩ white]) s1).1
              ∪ UpdateRegion.mk ⟨⟨5, 5⟩, ⟨45, 45⟩⟩ Waveform.DU,
          BorderRenderObject.drawBands black (Insets.all 2) ⟨⟨5, 5⟩, ⟨45, 45⟩⟩
              (ops.draw ⟨⟨7, 7⟩, ⟨43, 43⟩⟩
                  (canvas ++ [CanvasOp.set ⟨⟨7, 7⟩, ⟨43, 43⟩⟩ white]) s1).2.1,
          ⟨⟨false, false, false, sp⟩, scenario leaf,
            ⟨⟨false, false, false, sb⟩, (scenario leaf).child,
              ⟨⟨false, false, false, sc⟩, (scenario leaf).child.child,
                (ops.draw ⟨⟨7, 7⟩, ⟨43, 43⟩⟩
                  (canvas ++ [CanvasOp.set ⟨⟨7, 7⟩, ⟨43, 43⟩⟩ white]) s1).2.2⟩⟩⟩) := by
  have e1 : (Insets.all 5).shrink scenarioRect = ⟨⟨5, 5⟩, ⟨45, 45⟩⟩ := by decide
  have e2 : (Insets.all 2).shrink ⟨⟨5, 5⟩, ⟨45, 45⟩⟩ = ⟨⟨7, 7⟩, ⟨43, 43⟩⟩ := by decide
  simp only [scenarioOps, PaddingRenderObject.ops, BorderRenderObject.ops,
    ClearedRenderObject.ops,
    PaddingRenderObject.draw, BorderRenderObject.draw, ClearedRenderObject.draw,
    RenderObject.draw, SingleChildRenderObject.getNeedsDraw, RenderObject.getNeedsDraw,
    Bool.true_or, if_true, PaddingRenderObject.doDraw, BorderRenderObject.doDraw,
    ClearedRenderObject.doDraw, SingleChildRenderObject.setBase, RenderObject.isFullDraw,
    scenario, e1, e2, Bool.and_self]

theorem scenario_first_frame_shape {ω σ : Type} (ops : ChildOps ω σ) (leaf : ω) (s0 : σ)
    (c : Constraints) (canvas : Canvas) :
    ∃ (sp sb sc : Size) (s1 : σ),
      scenarioFirstFrame ops leaf s0 c canvas
        = (UpdateRegion.ofRect ⟨⟨7, 7⟩, ⟨43, 43⟩⟩
              ∪ (ops.draw ⟨⟨7, 7⟩, ⟨43, 43⟩⟩
                  (canvas ++ [CanvasOp.set ⟨⟨7, 7⟩, ⟨43, 43⟩⟩ white]) s1).1
              ∪ UpdateRegion.mk ⟨⟨5, 5⟩, ⟨45, 45⟩⟩ Waveform.DU,
            BorderRenderObject.drawBands black (Insets.all 2) ⟨⟨5, 5⟩, ⟨45, 45⟩⟩
              (ops.draw ⟨⟨7, 7⟩, ⟨43, 43⟩⟩
                  (canvas ++ [CanvasOp.set ⟨⟨7, 7⟩, ⟨43, 43⟩⟩ white]) s1).2.1,
            ⟨⟨false, false, false, sp⟩, scenario leaf,
              ⟨⟨false, false, false, sb⟩, (scenario leaf).child,
                ⟨⟨false, false, false, sc⟩, (scenario leaf).child.child,
                  (ops.draw ⟨⟨7, 7⟩, ⟨43, 43⟩⟩
                    (canvas ++ [CanvasOp.set ⟨⟨7, 7⟩, ⟨43, 43⟩⟩ white]) s1).2.2⟩⟩⟩) := by
  obtain ⟨sp, sb, sc, s1, h⟩ := scenario_layout_fresh ops leaf s0 c
  refine ⟨sp, sb, sc, s1, ?_⟩
  unfold scenarioFirstFrame
  rw [h, scenario_draw_dirty]

/-- C14, as stated, fails: with a leaf that fills and reports its rect, the region returned
by the first draw over `(0,0)-(50,50)` has the two entries `(7,7)-(43,43)` and
`(5,5)-(45,45)`, and its rectangles do not cover `(0,0)-(50,50)`: the corner `(0,0)` lies
in neither. -/
theorem scenario_first_frame_misses_margin :
    (scenarioFirstFrame colorLeaf 7 ({}, 7) ⟨⟨0, 0⟩, ⟨50, 50⟩⟩ []).1
        = {(⟨⟨7, 7⟩, ⟨43, 43⟩⟩, Waveform.GC16), (⟨⟨5, 5⟩, ⟨45, 45⟩⟩, Waveform.DU)} ∧
    ¬ (scenarioFirstFrame colorLeaf 7 ({}, 7) ⟨⟨0, 0⟩, ⟨50, 50⟩⟩ []).1.covers scenarioRect := by
  have hr : (scenarioFirstFrame colorLeaf 7 ({}, 7) ⟨⟨0, 0⟩, ⟨50, 50⟩⟩ []).1
      = {(⟨⟨7, 7⟩, ⟨43, 43⟩⟩, Waveform.GC16), (⟨⟨5, 5⟩, ⟨45, 45⟩⟩, Waveform.DU)} := by
    decide
  refine ⟨hr, ?_⟩
  intro h
  obtain ⟨e, he, hc⟩ := h ⟨0, 0⟩ (by decide)
  rw [hr] at he
  simp only [Finset.mem_insert, Finset.mem_singleton] at he
  rcases he with rfl | rfl
  · exact absurd hc (by decide)
  · exact absurd hc (by decide)

theorem colorLeaf_draw_within (r : Rect) (canvas : Canvas) (s : RenderObject × Int) :
    ∀ e ∈ (colorLeaf.draw r canvas s).1, e.1.within r := by
  obtain ⟨⟨nl, nd, nf, sz⟩, color⟩ := s
  intro e he
  cases nd
  · simp [colorLeaf, RenderObject.draw, RenderObject.getNeedsDraw] at he
  · simp only [colorLeaf, RenderObject.draw, RenderObject.getNeedsDraw, if_true,
      UpdateRegion.ofRect, Finset.mem_singleton] at he
    rw [he]
    simp [Rect.within]

/-- C14, amended: for every leaf, the region returned by the first draw of the fresh tree
over `(0,0)-(50,50)` is made of the Border's entry `((5,5)-(45,45), DU)`, the Cleared
entry for `(7,7)-(43,43)` and what the leaf reports when drawn over `(7,7)-(43,43)`;
Padding adds no entry.  The union of its rectangles covers `(5,5)-(45,45)`.  When the
leaf reports only rectangles within the rect it is drawn over, every entry lies within
`(5,5)-(45,45)` and the union does not cover `(0,0)-(50,50)`. -/
theorem scenario_first_frame_covers_border_rect {ω σ : Type} (ops : ChildOps ω σ) (leaf : ω)
    (s0 : σ) (c : Constraints) (canvas : Canvas) :
    (scenarioFirstFrame ops leaf s0 c canvas).1.covers ⟨⟨5, 5⟩, ⟨45, 45⟩⟩ ∧
    ∃ (s1 : σ) (canvas1 : Canvas),
      (scenarioFirstFrame ops leaf s0 c canvas).1
        = {(⟨⟨7, 7⟩, ⟨43, 43⟩⟩, Waveform.GC16)}
            ∪ (ops.draw ⟨⟨7, 7⟩, ⟨43, 43⟩⟩ canvas1 s1).1
            ∪ {(⟨⟨5, 5⟩, ⟨45, 45⟩⟩, Waveform.DU)} ∧
      ((∀ e ∈ (ops.draw ⟨⟨7, 7⟩, ⟨43, 43⟩⟩ canvas1 s1).1, e.1.within ⟨⟨7, 7⟩, ⟨43, 43⟩⟩) →
        (∀ e ∈ (scenarioFirstFrame ops leaf s0 c canvas).1,
          e.1.within ⟨⟨5, 5⟩, ⟨45, 45⟩⟩) ∧
        ¬ (scenarioFirstFrame ops leaf s0 c canvas).1.covers scenarioRect) := by
  obtain ⟨sp, sb, sc, s1, h⟩ := scenario_first_frame_shape ops leaf s0 c canvas
  rw [h]
  refine ⟨?_, s1, _, rfl, ?_⟩
  · intro p hp
    exact ⟨(⟨⟨5, 5⟩, ⟨45, 45⟩⟩, Waveform.DU), by simp [UpdateRegion.mk], hp⟩
  · intro hleaf
    have hall : ∀ e ∈ UpdateRegion.ofRect ⟨⟨7, 7⟩, ⟨43, 43⟩⟩
        ∪ (ops.draw ⟨⟨7, 7⟩, ⟨43, 43⟩⟩
            (canvas ++ [CanvasOp.set ⟨⟨7, 7⟩, ⟨43, 43⟩⟩ white]) s1).1
        ∪ UpdateRegion.mk ⟨⟨5, 5⟩, ⟨45, 45⟩⟩ Waveform.DU,
        e.1.within ⟨⟨5, 5⟩, ⟨45, 45⟩⟩ := by
      intro e he
      simp only [UpdateRegion.ofRect, UpdateRegion.mk, Finset.mem_union,
        Finset.mem_singleton] at he
      rcases he with (he | he) | he
      · rw [he]; decide
      · have := hleaf e he
        simp only [Rect.within] at this ⊢
        omega
      · rw [he]; decide
    refine ⟨hall, ?_⟩
    intro hcov
    obtain ⟨e, he, hc⟩ := hcov ⟨0, 0⟩ (by decide)
    have := hall e he
    simp only [Rect.within, Rect.contains] at this hc
    omega

/-- C14, amended, an instance: the leaf that fills and reports its rect reports within the
rect it is drawn over; every entry of the first frame lies within `(5,5)-(45,45)`. -/
theorem scenario_first_frame_covers_border_rect_witness :
    (∀ (r : Rect) (canvas : Canvas) (s : RenderObject × Int),
      ∀ e ∈ (colorLeaf.draw r canvas s).1, e.1.within r) ∧
    ∀ e ∈ (scenarioFirstFrame colorLeaf 7 ({}, 7) ⟨⟨0, 0⟩, ⟨50, 50⟩⟩ []).1,
      e.1.within ⟨⟨5, 5⟩, ⟨45, 45⟩⟩ := by
  refine ⟨colorLeaf_draw_within, ?_⟩
  obtain ⟨_, s1, canvas1, _, himp⟩ :=
    scenario_first_frame_covers_border_rect colorLeaf 7 ({}, 7) ⟨⟨0, 0⟩, ⟨50, 50⟩⟩ []
  exact (himp (colorLeaf_draw_within _ _ _)).1

theorem scenario_update_clean {ω σ : Type} (ops : ChildOps ω σ) (leaf leaf' : ω)
    (sp sb sc : Size) (s2 : σ) :
    (scenarioOps ops).update (scenario leaf')
        ⟨⟨false, false, false, sp⟩, scenario leaf,
          ⟨⟨false, false, false, sb⟩, (scenario leaf).child,
            ⟨⟨false, false, false, sc⟩, (scenario leaf).child.child, s2⟩⟩⟩
      = ⟨⟨false, false, false, sp⟩, scenario leaf',
          ⟨⟨false, false, false, sb⟩, (scenario leaf').child,
            ⟨⟨false, false, false, sc⟩, (scenario leaf').child.child,
              ops.update leaf' s2⟩⟩⟩ := by
  simp [scenarioOps, PaddingRenderObject.ops, BorderRenderObject.ops, ClearedRenderObject.ops,
    PaddingRenderObject.update, BorderRenderObject.update, ClearedRenderObject.update,
    scenario]

theorem scenario_draw_leaf_only {ω σ : Type} (ops : ChildOps ω σ) (leaf : ω)
    (sp sb sc : Size) (s3 : σ) (canvas : Canvas) (hdirty : ops.getNeedsDraw s3 = true) :
    (scenarioOps ops).draw scenarioRect canvas
        ⟨⟨false, false, false, sp⟩, scenario leaf,
          ⟨⟨false, false, false, sb⟩, (scenario leaf).child,
            ⟨⟨false, false, false, sc⟩, (scenario leaf).child.child, s3⟩⟩⟩
      = ((ops.draw ⟨⟨7, 7⟩, ⟨43, 43⟩⟩ canvas s3).1,
          (ops.draw ⟨⟨7, 7⟩, ⟨43, 43⟩⟩ canvas s3).2.1,
          ⟨⟨false, false, false, sp⟩, scenario leaf,
            ⟨⟨false, false, false, sb⟩, (scenario leaf).child,
              ⟨⟨false, false, false, sc⟩, (scenario leaf).child.child,
                (ops.draw ⟨⟨7, 7⟩, ⟨43, 43⟩⟩ canvas s3).2.2⟩⟩⟩) := by
  have e1 : (Insets.all 5).shrink scenarioRect = ⟨⟨5, 5⟩, ⟨45, 45⟩⟩ := by decide
  have e2 : (Insets.all 2).shrink ⟨⟨5, 5⟩, ⟨45, 45⟩⟩ = ⟨⟨7, 7⟩, ⟨43, 43⟩⟩ := by decide
  simp [scenarioOps, PaddingRenderObject.ops, BorderRenderObject.ops,
    ClearedRenderObject.ops,
    PaddingRenderObject.draw, BorderRenderObject.draw, ClearedRenderObject.draw,
    RenderObject.draw, SingleChildRenderObject.getNeedsDraw, RenderObject.getNeedsDraw,
    PaddingRenderObject.doDraw, BorderRenderObject.doDraw,
    ClearedRenderObject.doDraw, SingleChildRenderObject.setBase, RenderObject.isFullDraw,
    scenario, e1, e2, hdirty]

/-- C15: the tree of the scenario, over any leaf, has had its first layout and its first
draw over `(0,0)-(50,50)`.  It is updated with a tree that differs in the leaf's widget
only, after which the leaf needs drawing, and drawn over `(0,0)-(50,50)`.  That draw is
the leaf's draw over `(7,7)-(43,43)` on the canvas as received: region and canvas are
the leaf's, with no fill and no border line.  If the leaf reports a region within the rect
it is drawn over, every entry returned lies within `(7,7)-(43,43)`, and the Border's
entry for `(5,5)-(45,45)` is not among them. -/
theorem scenario_leaf_update_confined {ω σ : Type} (ops : ChildOps ω σ) (leaf leaf' : ω)
    (s0 : σ) (c : Constraints) (canvas0 canvas : Canvas)
    (hdirty : ops.getNeedsDraw
        (ops.update leaf' (scenarioFirstFrame ops leaf s0 c canvas0).2.2.child.child.child)
        = true)
    (hwithin : ∀ e ∈ (ops.draw ⟨⟨7, 7⟩, ⟨43, 43⟩⟩ canvas
        (ops.update leaf' (scenarioFirstFrame ops leaf s0 c canvas0).2.2.child.child.child)).1,
        e.1.within ⟨⟨7, 7⟩, ⟨43, 43⟩⟩) :
    ((scenarioOps ops).draw scenarioRect canvas
        ((scenarioOps ops).update (scenario leaf')
          (scenarioFirstFrame ops leaf s0 c canvas0).2.2)).1
      = (ops.draw ⟨⟨7, 7⟩, ⟨43, 43⟩⟩ canvas
          (ops.update leaf'
            (scenarioFirstFrame ops leaf s0 c canvas0).2.2.child.child.child)).1 ∧
    ((scenarioOps ops).draw scenarioRect canvas
        ((scenarioOps ops).update (scenario leaf')
          (scenarioFirstFrame ops leaf s0 c canvas0).2.2)).2.1
      = (ops.draw ⟨⟨7, 7⟩, ⟨43, 43⟩⟩ canvas
          (ops.update leaf'
            (scenarioFirstFrame ops leaf s0 c canvas0).2.2.child.child.child)).2.1 ∧
    ((scenarioOps ops).draw scenarioRect canvas
        ((scenarioOps ops).update (scenario leaf')
          (scenarioFirstFrame ops leaf s0 c canvas0).2.2)).2.2.child.child.child
      = (ops.draw ⟨⟨7, 7⟩, ⟨43, 43⟩⟩ canvas
          (ops.update leaf'
            (scenarioFirstFrame ops leaf s0 c canvas0).2.2.child.child.child)).2.2 ∧
    (∀ e ∈ ((scenarioOps ops).draw scenarioRect canvas
        ((scenarioOps ops).update (scenario leaf')
          (scenarioFirstFrame ops leaf s0 c canvas0).2.2)).1,
        e.1.within ⟨⟨7, 7⟩, ⟨43, 43⟩⟩) ∧
    (⟨⟨5, 5⟩, ⟨45, 45⟩⟩, Waveform.DU) ∉ ((scenarioOps ops).draw scenarioRect canvas
        ((scenarioOps ops).update (scenario leaf')
          (scenarioFirstFrame ops leaf s0 c canvas0).2.2)).1 := by
  obtain ⟨sp, sb, sc, s1, h⟩ := scenario_first_frame_shape ops leaf s0 c canvas0
  rw [h] at hdirty hwithin ⊢
  simp only at hdirty hwithin ⊢
  rw [scenario_update_clean, scenario_draw_leaf_only ops leaf' sp sb sc _ canvas hdirty]
  refine ⟨rfl, rfl, rfl, hwithin, ?_⟩
  intro hmem
  exact absurd (hwithin _ hmem) (by decide)

/-- C15, an instance: the leaf that fills its rect with its color changes its color from 7
to 9; the draw after the update returns the single entry for `(7,7)-(43,43)`. -/
theorem scenario_leaf_update_confined_witness :
    colorLeaf.getNeedsDraw
        (colorLeaf.update 9
          (scenarioFirstFrame colorLeaf 7 ({}, 7) ⟨⟨0, 0⟩, ⟨50, 50⟩⟩ []).2.2.child.child.child)
        = true ∧
    (∀ e ∈ (colorLeaf.draw ⟨⟨7, 7⟩, ⟨43, 43⟩⟩ []
        (colorLeaf.update 9
          (scenarioFirstFrame colorLeaf 7 ({}, 7)
            ⟨⟨0, 0⟩, ⟨50, 50⟩⟩ []).2.2.child.child.child)).1,
        e.1.within ⟨⟨7, 7⟩, ⟨43, 43⟩⟩) ∧
    ((scenarioOps colorLeaf).draw scenarioRect []
        ((scenarioOps colorLeaf).update (scenario 9)
          (scenarioFirstFrame colorLeaf 7 ({}, 7) ⟨⟨0, 0⟩, ⟨50, 50⟩⟩ []).2.2)).1
      = {(⟨⟨7, 7⟩, ⟨43, 43⟩⟩, Waveform.GC16)} :=
  ⟨by decide, by decide,
    (scenario_leaf_update_confined colorLeaf 7 9 ({}, 7) ⟨⟨0, 0⟩, ⟨50, 50⟩⟩ [] []
      (by decide) (by decide)).1.trans (by decide)⟩

/-! ### Drawing twice in a row -/

theorem draw_twice_empty {S : Type} (base : S → RenderObject) (setBase : RenderObject → S → S)
    (needs : S → Bool) (doDraw : Rect → Canvas → S → UpdateRegion × Canvas × S)
    (hD : ∀ (r : Rect) (canvas canvas' : Canvas) (s : S),
      (doDraw r canvas'
        (setBase { base (doDraw r canvas s).2.2 with needsDraw := false, needsFullDraw := false }
          (doDraw r canvas s).2.2)).1 = ∅)
    (r : Rect) (canvas canvas' : Canvas) (s : S) :
    (RenderObject.draw base setBase needs doDraw r canvas'
      (RenderObject.draw base setBase needs doDraw r canvas s).2.2).1 = ∅ := by
  by_cases h : needs s = true
  · simp only [RenderObject.draw, h, if_true]
    split
    · exact hD r canvas canvas' s
    · rfl
  · simp [RenderObject.draw, h]

/-- C16: if drawing the child twice in a row over the same rect gives the empty region the
second time, so does drawing each of the seven primitives over that child: the second
public `draw` of Center, Padding, CircularBorder, Border, Sized, Cleared and Positioned
returns the empty region, without the Border or CircularBorder entry for the rect and
without the Cleared fill entry. -/
theorem primitives_redraw_idempotent {ω σ : Type} (t : Trig) (ops : ChildOps ω σ)
    (hchild : RedrawIdempotent ops) :
    RedrawIdempotent (CenterRenderObject.ops ops) ∧
    RedrawIdempotent (PaddingRenderObject.ops ops) ∧
    RedrawIdempotent (CircularBorderRenderObject.ops t ops) ∧
    RedrawIdempotent (BorderRenderObject.ops ops) ∧
    RedrawIdempotent (SizedRenderObject.ops ops) ∧
    RedrawIdempotent (ClearedRenderObject.ops ops) ∧
    RedrawIdempotent (PositionedRenderObject.ops ops) := by
  refine ⟨?_, ?_, ?_, ?_, ?_, ?_, ?_⟩
  · intro r canvas canvas' s
    apply draw_twice_empty
    intro r canvas canvas' s
    simp only [CenterRenderObject.doDraw]
    exact hchild _ _ _ _
  · intro r canvas canvas' s
    apply draw_twice_empty
    intro r canvas canvas' s
    simp only [PaddingRenderObject.doDraw, SingleChildRenderObject.setBase]
    exact hchild _ _ _ _
  · intro r canvas canvas' s
    apply draw_twice_empty
    intro r canvas canvas' s
    cases hs : s.base.needsDraw <;>
      simp [CircularBorderRenderObject.doDraw, SingleChildRenderObject.setBase,
        RenderObject.getNeedsDraw, hs, hchild _ _ _ _]
  · intro r canvas canvas' s
    apply draw_twice_empty
    intro r canvas canvas' s
    cases hs : s.base.needsDraw <;>
      simp [BorderRenderObject.doDraw, SingleChildRenderObject.setBase,
        RenderObject.getNeedsDraw, hs, hchild _ _ _ _]
  · intro r canvas canvas' s
    apply draw_twice_empty
    intro r canvas canvas' s
    simp only [SizedRenderObject.doDraw, SingleChildRenderObject.setBase]
    exact hchild _ _ _ _
  · intro r canvas canvas' s
    apply draw_twice_empty
    intro r canvas canvas' s
    cases hs : s.base.isFullDraw <;>
      simp [ClearedRenderObject.doDraw, SingleChildRenderObject.setBase,
        RenderObject.isFullDraw, hs, hchild _ _ _ _]
  · intro r canvas canvas' s
    apply draw_twice_empty
    intro r canvas canvas' s
    simp only [PositionedRenderObject.doDraw]
    exact hchild _ _ _ _

theorem colorLeaf_redraw_idempotent : RedrawIdempotent colorLeaf := by
  intro r canvas canvas' s
  obtain ⟨⟨nl, nd, nf, sz⟩, color⟩ := s
  cases nd <;> simp [colorLeaf, RenderObject.draw, RenderObject.getNeedsDraw]

/-- C16, an instance: the leaf that fills and reports its rect has the property, so the
seven primitives over it have it; a Border over it, drawn twice from the fresh state,
reports two entries the first time and none the second. -/
theorem primitives_redraw_idempotent_witness :
    RedrawIdempotent colorLeaf ∧
    (RedrawIdempotent (CenterRenderObject.ops colorLeaf) ∧
      RedrawIdempotent (PaddingRenderObject.ops colorLeaf) ∧
      RedrawIdempotent (CircularBorderRenderObject.ops ⟨fun _ _ => 0, fun _ _ => 0⟩ colorLeaf) ∧
      RedrawIdempotent (BorderRenderObject.ops colorLeaf) ∧
      RedrawIdempotent (SizedRenderObject.ops colorLeaf) ∧
      RedrawIdempotent (ClearedRenderObject.ops colorLeaf) ∧
      RedrawIdempotent (PositionedRenderObject.ops colorLeaf)) ∧
    (BorderRenderObject.draw colorLeaf ⟨⟨0, 0⟩, ⟨50, 50⟩⟩ []
        ⟨{}, ⟨7, Insets.all 2, black⟩, ({}, 7)⟩).1
      = {(⟨⟨2, 2⟩, ⟨48, 48⟩⟩, Waveform.GC16), (⟨⟨0, 0⟩, ⟨50, 50⟩⟩, Waveform.DU)} ∧
    (BorderRenderObject.draw colorLeaf ⟨⟨0, 0⟩, ⟨50, 50⟩⟩ []
        (BorderRenderObject.draw colorLeaf ⟨⟨0, 0⟩, ⟨50, 50⟩⟩ []
          ⟨{}, ⟨7, Insets.all 2, black⟩, ({}, 7)⟩).2.2).1 = ∅ :=
  ⟨colorLeaf_redraw_idempotent,
    primitives_redraw_idempotent ⟨fun _ _ => 0, fun _ _ => 0⟩ colorLeaf
      colorLeaf_redraw_idempotent,
    by decide, by decide⟩

/-! ### The refresh mode of a Border -/

/-- C17, as stated, fails: a Border marked needs-draw, drawn over `(0,0)-(50,50)`, adds the
entry `((0,0)-(50,50), DU)`; the region does not hold the entry with the full refresh
mode, and is not the child's region merged with that entry. -/
theorem border_doDraw_mode_not_full :
    (BorderRenderObject.doDraw (staticLeaf fun k => k.max) ⟨⟨0, 0⟩, ⟨50, 50⟩⟩ []
        ⟨⟨false, true, false, ⟨50, 50⟩⟩, ⟨(), Insets.all 2, black⟩, ()⟩).1
      = {(⟨⟨0, 0⟩, ⟨50, 50⟩⟩, Waveform.DU)} ∧
    (⟨⟨0, 0⟩, ⟨50, 50⟩⟩, Waveform.GC16) ∉
      (BorderRenderObject.doDraw (staticLeaf fun k => k.max) ⟨⟨0, 0⟩, ⟨50, 50⟩⟩ []
        ⟨⟨false, true, false, ⟨50, 50⟩⟩, ⟨(), Insets.all 2, black⟩, ()⟩).1 ∧
    (BorderRenderObject.doDraw (staticLeaf fun k => k.max) ⟨⟨0, 0⟩, ⟨50, 50⟩⟩ []
        ⟨⟨false, true, false, ⟨50, 50⟩⟩, ⟨(), Insets.all 2, black⟩, ()⟩).1
      ≠ ((staticLeaf fun k => k.max).draw
            ((Insets.all 2).shrink ⟨⟨0, 0⟩, ⟨50, 50⟩⟩) [] ()).1
          ∪ {(⟨⟨0, 0⟩, ⟨50, 50⟩⟩, Waveform.GC16)} := by
  refine ⟨by decide, by decide, by decide⟩

/-- C17, amended: when a Border node itself is marked needs-draw, the result of its
`doDraw` is the child's region merged with `{rect, Waveform::DU}`: the rectangle of the
added entry is the Border's whole rect and its refresh mode is `DU`, the fast mode, not
the full one. -/
theorem border_doDraw_mode_DU {ω σ : Type} (ops : ChildOps ω σ) (needsLayout needsFullDraw : Bool)
    (size : Size) (w : Border ω) (s : σ) (rect : Rect) (canvas : Canvas) :
    (BorderRenderObject.doDraw ops rect canvas
        ⟨⟨needsLayout, true, needsFullDraw, size⟩, w, s⟩).1
      = (ops.draw (w.size.shrink rect) canvas s).1 ∪ {(rect, Waveform.DU)} ∧
    (rect, Waveform.DU) ∈ (BorderRenderObject.doDraw ops rect canvas
        ⟨⟨needsLayout, true, needsFullDraw, size⟩, w, s⟩).1 ∧
    Waveform.DU ≠ Waveform.GC16 := by
  refine ⟨?_, ?_, by decide⟩
  · simp [BorderRenderObject.doDraw, RenderObject.getNeedsDraw, UpdateRegion.mk]
  · simp [BorderRenderObject.doDraw, RenderObject.getNeedsDraw, UpdateRegion.mk]

/-! ### The composition helper -/

theorem container_layout_fresh {ω σ : Type} (ops : ChildOps ω σ) (child : ω)
    (padding border margin : Insets) (s : σ) (log : List (ChildCall ω)) (c : Constraints) :
    ∃ (sp sb sc : Size) (s1 : σ) (marks : List (ChildCall ω)),
      (marks = [] ∨ marks = [ChildCall.markNeedsDraw true]) ∧
      ((containerOps ops.traced).layout c
          (containerCreate (container child padding border margin) (s, log))).2
        = ⟨⟨false, true, true, sp⟩, container child padding border margin,
            ⟨⟨false, true, true, sb⟩, (container child padding border margin).child,
              ⟨⟨false, true, true, sc⟩, (container child padding border margin).child.child,
                (s1, log ++ [ChildCall.layout (((c.inset margin).inset border).inset padding)]
                      ++ marks)⟩⟩⟩ := by
  simp only [containerOps, PaddingRenderObject.ops, BorderRenderObject.ops,
    containerCreate, container, Border.withDefaultColor, SingleChildRenderObject.create,
    PaddingRenderObject.layout, BorderRenderObject.layout,
    RenderObject.layout, SingleChildRenderObject.getNeedsLayout,
    RenderObject.getNeedsLayout, Bool.true_or, if_true, PaddingRenderObject.doLayout,
    BorderRenderObject.doLayout, SingleChildRenderObject.setBase]
  split_ifs
  · refine ⟨c.expand ((c.inset margin).expand (((c.inset margin).inset border).expand
        (ops.layout (((c.inset margin).inset border).inset padding) s).1 padding) border)
        margin,
      (c.inset margin).expand (((c.inset margin).inset border).expand
        (ops.layout (((c.inset margin).inset border).inset padding) s).1 padding) border,
      ((c.inset margin).inset border).expand
        (ops.layout (((c.inset margin).inset border).inset padding) s).1 padding,
      ops.markNeedsDraw true (ops.layout (((c.inset margin).inset border).inset padding) s).2,
      [ChildCall.markNeedsDraw true], Or.inr rfl, ?_⟩
    simp [SingleChildRenderObject.markNeedsDraw, RenderObject.markNeedsDraw, ChildOps.traced]
  · refine ⟨c.expand ((c.inset margin).expand (((c.inset margin).inset border).expand
        (ops.layout (((c.inset margin).inset border).inset padding) s).1 padding) border)
        margin,
      (c.inset margin).expand (((c.inset margin).inset border).expand
        (ops.layout (((c.inset margin).inset border).inset padding) s).1 padding) border,
      ((c.inset margin).inset border).expand
        (ops.layout (((c.inset margin).inset border).inset padding) s).1 padding,
      (ops.layout (((c.inset margin).inset border).inset padding) s).2,
      [], Or.inl rfl, ?_⟩
    simp [ChildOps.traced]

theorem container_draw_dirty {ω σ : Type} (ops : ChildOps ω σ) (child : ω)
    (padding border margin : Insets) (sp sb sc : Size) (s1 : σ) (log1 : List (ChildCall ω))
    (rect : Rect) (canvas : Canvas) :
    ((containerOps ops.traced).draw rect canvas
        ⟨⟨false, true, true, sp⟩, container child padding border margin,
          ⟨⟨false, true, true, sb⟩, (container child padding border margin).child,
            ⟨⟨false, true, true, sc⟩, (container child padding border margin).child.child,
              (s1, log1)⟩⟩⟩).2.2.child.child.child.2
      = log1 ++ [ChildCall.draw (padding.shrink (border.shrink (margin.shrink rect)))
                  canvas] := by
  simp [containerOps, PaddingRenderObject.ops, BorderRenderObject.ops,
    container, Border.withDefaultColor,
    PaddingRenderObject.draw, BorderRenderObject.draw,
    RenderObject.draw, SingleChildRenderObject.getNeedsDraw, RenderObject.getNeedsDraw,
    PaddingRenderObject.doDraw, BorderRenderObject.doDraw, SingleChildRenderObject.setBase,
    ChildOps.traced]

/-- C18: `container(child, padding, border, margin)` is
`Padding(Border(Padding(child, padding), border), margin)` with the Border in its default
color, and the default arguments are zero insets.  Consequently the first layout of its
freshly created render object under `c` hands the innermost child the constraints `c`
inset by margin, border and padding in turn, and the first draw over `rect` hands it the
rect shrunk by margin, border and padding in turn, on the canvas as received; the only
other call the innermost child may receive is the `markNeedsDraw()` of the Border's
layout. -/
theorem container_is_nested_composition {ω σ : Type} (ops : ChildOps ω σ) (child : ω)
    (padding border margin : Insets) (s : σ) (log : List (ChildCall ω))
    (c : Constraints) (rect : Rect) (canvas : Canvas) :
    container child padding border margin
      = containerSpec child padding border margin black ∧
    containerDefault child
      = containerSpec child (Insets.all 0) (Insets.all 0) (Insets.all 0) black ∧
    ∃ marks : List (ChildCall ω),
      (marks = [] ∨ marks = [ChildCall.markNeedsDraw true]) ∧
      ((containerOps ops.traced).layout c
          (containerCreate (container child padding border margin)
            (s, log))).2.child.child.child.2
        = log ++ [ChildCall.layout (((c.inset margin).inset border).inset padding)] ++ marks ∧
      ((containerOps ops.traced).draw rect canvas
          ((containerOps ops.traced).layout c
            (containerCreate (container child padding border margin)
              (s, log))).2).2.2.child.child.child.2
        = log ++ [ChildCall.layout (((c.inset margin).inset border).inset padding)] ++ marks
            ++ [ChildCall.draw (padding.shrink (border.shrink (margin.shrink rect)))
                  canvas] := by
  refine ⟨rfl, rfl, ?_⟩
  obtain ⟨sp, sb, sc, s1, marks, hm, h⟩ :=
    container_layout_fresh ops child padding border margin s log c
  refine ⟨marks, hm, ?_, ?_⟩
  · rw [h]
  · rw [h, container_draw_dirty]

/-! ### The bands of a Border -/

theorem drawLineLoop_eq_map (color : Int) (dir : Point) (n : Nat) (a b : Point) :
    BorderRenderObject.drawLineLoop color dir n a b []
      = (List.range n).map (fun k : Nat =>
          CanvasOp.drawLine ⟨a.x + k * dir.x, a.y + k * dir.y⟩
            ⟨b.x + k * dir.x, b.y + k * dir.y⟩ color) := by
  induction n generalizing a b with
  | zero => simp [BorderRenderObject.drawLineLoop]
  | succ n ih =>
    simp only [BorderRenderObject.drawLineLoop]
    rw [drawLineLoop_eq_append, ih, List.range_succ_eq_map, List.map_cons, List.map_map]
    have px : ∀ p q : Point, (p + q).x = p.x + q.x := fun _ _ => rfl
    have py : ∀ p q : Point, (p + q).y = p.y + q.y := fun _ _ => rfl
    simp only [List.nil_append, List.singleton_append, Nat.cast_zero, zero_mul, add_zero,
      List.cons.injEq, true_and]
    apply List.map_congr_left
    intro k _
    simp only [Function.comp, px, py, Nat.cast_succ, CanvasOp.drawLine.injEq, Point.mk.injEq,
      and_true]
    refine ⟨⟨?_, ?_⟩, ⟨?_, ?_⟩⟩ <;> ring

theorem drawBands_eq_spec (color : Int) (size : Insets) (rect : Rect) :
    BorderRenderObject.drawBands color size rect [] = borderBandsSpec color size rect := by
  simp only [BorderRenderObject.drawBands]
  rw [drawLine_eq_append color _ _ _ size.bottom, drawLine_eq_append color _ _ _ size.right,
    drawLine_eq_append color _ _ _ size.left]
  simp only [BorderRenderObject.drawLine, drawLineLoop_eq_map, borderBandsSpec]
  congr 1
  · congr 1
    · congr 1
      · apply List.map_congr_left
        intro k _
        simp
      · apply List.map_congr_left
        intro k _
        simp
    · apply List.map_congr_left
      intro k _
      simp only [CanvasOp.drawLine.injEq, Point.mk.injEq, and_true]
      refine ⟨⟨?_, ?_⟩, ⟨?_, ?_⟩⟩ <;> ring
  · apply List.map_congr_left
    intro k _
    simp only [CanvasOp.drawLine.injEq, Point.mk.injEq, and_true]
    refine ⟨⟨?_, ?_⟩, ⟨?_, ?_⟩⟩ <;> ring

/-- C19: for a rect with `topLeft <= bottomRight` and a non-negative border size whose
left+right and top+bottom do not exceed the rect's extent, the `doDraw` of a Border
marked needs-draw appends to the canvas, after what the child has drawn, exactly the lines
of the four bands as specified, in the order top, left, right, bottom; they are
`top + left + right + bottom` many; both endpoints of every line lie inside `rect`, and
no point of a line lies inside the child's rect `size.shrink(rect)`. -/
theorem border_doDraw_bands {ω σ : Type} (ops : ChildOps ω σ) (needsLayout needsFullDraw : Bool)
    (sz : Size) (w : ω) (size : Insets) (color : Int) (s : σ) (rect : Rect) (canvas : Canvas)
    (hrect : rect.topLeft.x ≤ rect.bottomRight.x ∧ rect.topLeft.y ≤ rect.bottomRight.y)
    (hnn : 0 ≤ size.top ∧ 0 ≤ size.left ∧ 0 ≤ size.right ∧ 0 ≤ size.bottom)
    (hsum : size.left + size.right ≤ rect.width ∧ size.top + size.bottom ≤ rect.height) :
    (BorderRenderObject.doDraw ops rect canvas
        ⟨⟨needsLayout, true, needsFullDraw, sz⟩, ⟨w, size, color⟩, s⟩).2.1
      = (ops.draw (size.shrink rect) canvas s).2.1 ++ borderBandsSpec color size rect ∧
    ((borderBandsSpec color size rect).length : Int)
      = size.top + size.left + size.right + size.bottom ∧
    ∀ (a b : Point) (col : Int), CanvasOp.drawLine a b col ∈ borderBandsSpec color size rect →
      rect.contains a ∧ rect.contains b ∧
      ∀ p : Point, onLine a b p → ¬ (size.shrink rect).contains p := by
  obtain ⟨hx, hy⟩ := hrect
  obtain ⟨ht, hl, hr, hb⟩ := hnn
  obtain ⟨hsx, hsy⟩ := hsum
  simp only [Rect.width, Rect.height] at hsx hsy
  refine ⟨?_, ?_, ?_⟩
  · simp only [BorderRenderObject.doDraw, RenderObject.getNeedsDraw, if_true]
    rw [drawBands_eq_append, drawBands_eq_spec]
  · simp only [borderBandsSpec, List.length_append, List.length_map, List.length_range,
      Nat.cast_add]
    omega
  · intro a b col hmem
    simp only [borderBandsSpec, List.mem_append, List.mem_map, List.mem_range,
      CanvasOp.drawLine.injEq] at hmem
    simp only [Rect.contains, Insets.shrink, onLine]
    rcases hmem with ((⟨k, hk, rfl, rfl, _⟩ | ⟨k, hk, rfl, rfl, _⟩) | ⟨k, hk, rfl, rfl, _⟩)
        | ⟨k, hk, rfl, rfl, _⟩
    · refine ⟨by dsimp only; omega, by dsimp only; omega, ?_⟩
      intro p hp
      simp only [min_self, max_self] at hp
      omega
    · refine ⟨by dsimp only; omega, by dsimp only; omega, ?_⟩
      intro p hp
      simp only [min_self, max_self] at hp
      omega
    · refine ⟨by dsimp only; omega, by dsimp only; omega, ?_⟩
      intro p hp
      simp only [min_self, max_self] at hp
      omega
    · refine ⟨by dsimp only; omega, by dsimp only; omega, ?_⟩
      intro p hp
      simp only [min_self, max_self] at hp
      omega

/-- C19, an instance: a Border of thickness 2 drawn over `(5,5)-(45,45)` paints the eight
lines of the rows 5, 6, the columns 5, 6, the columns 45, 44 and the rows 45, 44. -/
theorem border_doDraw_bands_witness :
    ((5 : Int) ≤ 45 ∧ (5 : Int) ≤ 45) ∧
    ((0 : Int) ≤ (Insets.all 2).top ∧ (0 : Int) ≤ (Insets.all 2).left ∧
      (0 : Int) ≤ (Insets.all 2).right ∧ (0 : Int) ≤ (Insets.all 2).bottom) ∧
    ((Insets.all 2).left + (Insets.all 2).right ≤ (⟨⟨5, 5⟩, ⟨45, 45⟩⟩ : Rect).width ∧
      (Insets.all 2).top + (Insets.all 2).bottom ≤ (⟨⟨5, 5⟩, ⟨45, 45⟩⟩ : Rect).height) ∧
    (BorderRenderObject.doDraw (staticLeaf fun k => k.max) ⟨⟨5, 5⟩, ⟨45, 45⟩⟩ []
        ⟨⟨false, true, false, ⟨40, 40⟩⟩, ⟨(), Insets.all 2, 0⟩, ()⟩).2.1
      = [CanvasOp.drawLine ⟨5, 5⟩ ⟨45, 5⟩ 0, CanvasOp.drawLine ⟨5, 6⟩ ⟨45, 6⟩ 0,
         CanvasOp.drawLine ⟨5, 5⟩ ⟨5, 45⟩ 0, CanvasOp.drawLine ⟨6, 5⟩ ⟨6, 45⟩ 0,
         CanvasOp.drawLine ⟨45, 5⟩ ⟨45, 45⟩ 0, CanvasOp.drawLine ⟨44, 5⟩ ⟨44, 45⟩ 0,
         CanvasOp.drawLine ⟨5, 45⟩ ⟨45, 45⟩ 0, CanvasOp.drawLine ⟨5, 44⟩ ⟨45, 44⟩ 0] :=
  ⟨by decide, by decide, by decide,
    (border_doDraw_bands (staticLeaf fun k => k.max) false false ⟨40, 40⟩ () (Insets.all 2) 0 ()
      ⟨⟨5, 5⟩, ⟨45, 45⟩⟩ [] (by decide) (by decide) (by decide)).1.trans (by decide)⟩

/-! ### Sizes within constraints -/

theorem clamp_mem (v lo hi : Int) (h : lo ≤ hi) : lo ≤ clamp v lo hi ∧ clamp v lo hi ≤ hi := by
  unfold clamp
  split_ifs <;> omega

theorem sized_doLayout_eq_spec {ω σ : Type} (ops : ChildOps ω σ) (base : RenderObject) (w : ω)
    (width height : Option Int) (s : σ) (c : Constraints) :
    (SizedRenderObject.doLayout ops c ⟨base, ⟨w, width, height⟩, s⟩).1
      = (ops.layout (sizedConstraintsSpec width height c) s).1 := by
  cases width <;> cases height <;> rfl

/-- C20, as stated, fails for Center and Positioned: under `{{50,50},{INF,INF}}`, which has
`min <= max`, a child that returns `{10,10}` stays within the constraints `{{0,0},{INF,INF}}`
it is given, and `doLayout` returns `{10,10}`, which is below the minimum `{50,50}`. -/
theorem center_doLayout_below_min :
    (⟨⟨50, 50⟩, ⟨Constraints.unbound, Constraints.unbound⟩⟩ : Constraints).WellFormed ∧
    (⟨⟨0, 0⟩, ⟨Constraints.unbound, Constraints.unbound⟩⟩ : Constraints).contain
      ((staticLeaf fun _ => ⟨10, 10⟩).layout
        ⟨⟨0, 0⟩, ⟨Constraints.unbound, Constraints.unbound⟩⟩ ()).1 ∧
    (CenterRenderObject.doLayout (staticLeaf fun _ => ⟨10, 10⟩)
        ⟨⟨50, 50⟩, ⟨Constraints.unbound, Constraints.unbound⟩⟩
        ⟨⟨{}, ⟨()⟩, ()⟩, ⟨0, 0⟩⟩).1 = ⟨10, 10⟩ ∧
    ¬ (⟨⟨50, 50⟩, ⟨Constraints.unbound, Constraints.unbound⟩⟩ : Constraints).contain
        (CenterRenderObject.doLayout (staticLeaf fun _ => ⟨10, 10⟩)
          ⟨⟨50, 50⟩, ⟨Constraints.unbound, Constraints.unbound⟩⟩
          ⟨⟨{}, ⟨()⟩, ()⟩, ⟨0, 0⟩⟩).1 ∧
    (PositionedRenderObject.doLayout (staticLeaf fun _ => ⟨10, 10⟩)
        ⟨⟨50, 50⟩, ⟨Constraints.unbound, Constraints.unbound⟩⟩
        ⟨⟨{}, ⟨(), ⟨0, 0⟩⟩, ()⟩, ⟨0, 0⟩⟩).1 = ⟨10, 10⟩ ∧
    ¬ (⟨⟨50, 50⟩, ⟨Constraints.unbound, Constraints.unbound⟩⟩ : Constraints).contain
        (PositionedRenderObject.doLayout (staticLeaf fun _ => ⟨10, 10⟩)
          ⟨⟨50, 50⟩, ⟨Constraints.unbound, Constraints.unbound⟩⟩
          ⟨⟨{}, ⟨(), ⟨0, 0⟩⟩, ()⟩, ⟨0, 0⟩⟩).1 := by
  refine ⟨by decide, by decide, by decide, by decide, by decide, by decide⟩

/-- C20, amended: under constraints `c` with `c.min <= c.max`, if the size the child returns
lies within the constraints the primitive passed to it, the size `doLayout` returns lies
within `c` for Padding, CircularBorder, Border, Sized and Cleared; for Center and
Positioned it does so provided that on every unbounded axis `c.min` is at most 0, and for
Positioned also that the position is not negative on such an axis. -/
theorem doLayout_within_constraints {ω σ : Type} (ops : ChildOps ω σ) (base : RenderObject)
    (w : ω) (s : σ) (childSize : Size) (i : Insets) (color : Int)
    (width height : Option Int) (position : Point) (c : Constraints) (hc : c.WellFormed) :
    -- Center
    ((c.hasBoundedWidth = false → c.min.width ≤ 0) →
      (c.hasBoundedHeight = false → c.min.height ≤ 0) →
      (⟨⟨0, 0⟩, c.max⟩ : Constraints).contain (ops.layout ⟨⟨0, 0⟩, c.max⟩ s).1 →
      c.contain (CenterRenderObject.doLayout ops c ⟨⟨base, ⟨w⟩, s⟩, childSize⟩).1) ∧
    -- Padding
    ((c.inset i).contain (ops.layout (c.inset i) s).1 →
      c.contain (PaddingRenderObject.doLayout ops c ⟨base, ⟨w, i⟩, s⟩).1) ∧
    -- CircularBorder
    ((c.inset i).contain (ops.layout (c.inset i) s).1 →
      c.contain (CircularBorderRenderObject.doLayout ops c ⟨base, ⟨w, i, color⟩, s⟩).1) ∧
    -- Border
    ((c.inset i).contain (ops.layout (c.inset i) s).1 →
      c.contain (BorderRenderObject.doLayout ops c ⟨base, ⟨w, i, color⟩, s⟩).1) ∧
    -- Sized
    ((sizedConstraintsSpec width height c).contain
        (ops.layout (sizedConstraintsSpec width height c) s).1 →
      c.contain (SizedRenderObject.doLayout ops c ⟨base, ⟨w, width, height⟩, s⟩).1) ∧
    -- Cleared
    (c.contain (ops.layout c s).1 →
      c.contain (ClearedRenderObject.doLayout ops c ⟨base, ⟨w, color⟩, s⟩).1) ∧
    -- Positioned
    ((c.hasBoundedWidth = false → c.min.width ≤ 0 ∧ 0 ≤ position.x) →
      (c.hasBoundedHeight = false → c.min.height ≤ 0 ∧ 0 ≤ position.y) →
      (⟨⟨0, 0⟩, ⟨intSub c.max.width position.x,
          intSub c.max.height position.y⟩⟩ : Constraints).contain
        (ops.layout ⟨⟨0, 0⟩, ⟨intSub c.max.width position.x,
          intSub c.max.height position.y⟩⟩ s).1 →
      c.contain (PositionedRenderObject.doLayout ops c
        ⟨⟨base, ⟨w, position⟩, s⟩, childSize⟩).1) := by
  obtain ⟨hcw, hch⟩ := hc
  refine ⟨?_, ?_, ?_, ?_, ?_, ?_, ?_⟩
  · intro hw hh hin
    simp only [Constraints.contain] at hin ⊢
    cases bw : c.hasBoundedWidth <;> cases bh : c.hasBoundedHeight <;>
      simp only [CenterRenderObject.doLayout, bw, bh, Bool.not_false, Bool.not_true, if_true,
        Bool.false_eq_true, if_false] <;>
      have hw' := hw <;> have hh' := hh <;> simp only [bw, bh] at hw' hh' <;>
      simp only [true_implies, Bool.true_eq_false, false_implies] at hw' hh' <;> omega
  · intro hin
    simp only [Constraints.contain, Constraints.inset, PaddingRenderObject.doLayout,
      Constraints.expand] at hin ⊢
    omega
  · intro hin
    have : (CircularBorderRenderObject.doLayout ops c ⟨base, ⟨w, i, color⟩, s⟩).1
        = c.expand (ops.layout (c.inset i) s).1 i := by
      simp only [CircularBorderRenderObject.doLayout]
    rw [this]
    simp only [Constraints.contain, Constraints.inset, Constraints.expand] at hin ⊢
    omega
  · intro hin
    have : (BorderRenderObject.doLayout ops c ⟨base, ⟨w, i, color⟩, s⟩).1
        = c.expand (ops.layout (c.inset i) s).1 i := by
      simp only [BorderRenderObject.doLayout]
    rw [this]
    simp only [Constraints.contain, Constraints.inset, Constraints.expand] at hin ⊢
    omega
  · intro hin
    rw [sized_doLayout_eq_spec]
    have cw := fun v => clamp_mem v c.min.width c.max.width hcw
    have ch := fun v => clamp_mem v c.min.height c.max.height hch
    cases width <;> cases height <;>
      simp only [sizedConstraintsSpec, Constraints.contain, Option.map_none', Option.map_some',
        Option.getD_none, Option.getD_some] at hin ⊢
    · omega
    · rename_i v; have := ch v; omega
    · rename_i v; have := cw v; omega
    · rename_i v v'; have := cw v; have := ch v'; omega
  · intro hin
    exact hin
  · intro hw hh hin
    simp only [Constraints.contain] at hin ⊢
    have ux : intSub c.max.width position.x ≤ 2147483647 := by unfold intSub; omega
    have uy : intSub c.max.height position.y ≤ 2147483647 := by unfold intSub; omega
    have mw : c.hasBoundedWidth = false → c.max.width = 2147483647 := by
      simp [Constraints.hasBoundedWidth, Constraints.unbound]
    have mh : c.hasBoundedHeight = false → c.max.height = 2147483647 := by
      simp [Constraints.hasBoundedHeight, Constraints.unbound]
    cases bw : c.hasBoundedWidth <;> cases bh : c.hasBoundedHeight <;>
      simp only [PositionedRenderObject.doLayout, bw, bh, Bool.not_false, Bool.not_true,
        if_true, Bool.false_eq_true, if_false] <;>
      have hw' := hw <;> have hh' := hh <;> have mw' := mw <;> have mh' := mh <;>
      simp only [bw, bh] at hw' hh' mw' mh' <;>
      simp only [true_implies, Bool.true_eq_false, false_implies] at hw' hh' mw' mh' <;> omega

/-- C20, an instance: width unbounded, height at most 100, minimum `{0,0}`, over a child
that returns the minimum of the constraints it is given; every premise holds and the
seven sizes returned lie within the constraints. -/
theorem doLayout_within_constraints_witness :
    (⟨⟨0, 0⟩, ⟨Constraints.unbound, 100⟩⟩ : Constraints).WellFormed ∧
    (⟨⟨0, 0⟩, ⟨Constraints.unbound, 100⟩⟩ : Constraints).contain
      (CenterRenderObject.doLayout (staticLeaf fun k => k.min) ⟨⟨0, 0⟩, ⟨Constraints.unbound, 100⟩⟩ ⟨⟨{}, ⟨()⟩, ()⟩, ⟨0, 0⟩⟩).1 ∧
    (⟨⟨0, 0⟩, ⟨Constraints.unbound, 100⟩⟩ : Constraints).contain
      (PaddingRenderObject.doLayout (staticLeaf fun k => k.min) ⟨⟨0, 0⟩, ⟨Constraints.unbound, 100⟩⟩ ⟨{}, ⟨(), Insets.all 5⟩, ()⟩).1 ∧
    (⟨⟨0, 0⟩, ⟨Constraints.unbound, 100⟩⟩ : Constraints).contain
      (CircularBorderRenderObject.doLayout (staticLeaf fun k => k.min) ⟨⟨0, 0⟩, ⟨Constraints.unbound, 100⟩⟩ ⟨{}, ⟨(), Insets.all 5, 0⟩, ()⟩).1 ∧
    (⟨⟨0, 0⟩, ⟨Constraints.unbound, 100⟩⟩ : Constraints).contain
      (BorderRenderObject.doLayout (staticLeaf fun k => k.min) ⟨⟨0, 0⟩, ⟨Constraints.unbound, 100⟩⟩ ⟨{}, ⟨(), Insets.all 5, 0⟩, ()⟩).1 ∧
    (⟨⟨0, 0⟩, ⟨Constraints.unbound, 100⟩⟩ : Constraints).contain
      (SizedRenderObject.doLayout (staticLeaf fun k => k.min) ⟨⟨0, 0⟩, ⟨Constraints.unbound, 100⟩⟩ ⟨{}, ⟨(), some 50, none⟩, ()⟩).1 ∧
    (⟨⟨0, 0⟩, ⟨Constraints.unbound, 100⟩⟩ : Constraints).contain
      (ClearedRenderObject.doLayout (staticLeaf fun k => k.min) ⟨⟨0, 0⟩, ⟨Constraints.unbound, 100⟩⟩ ⟨{}, ⟨(), 0⟩, ()⟩).1 ∧
    (⟨⟨0, 0⟩, ⟨Constraints.unbound, 100⟩⟩ : Constraints).contain
      (PositionedRenderObject.doLayout (staticLeaf fun k => k.min) ⟨⟨0, 0⟩, ⟨Constraints.unbound, 100⟩⟩ ⟨⟨{}, ⟨(), ⟨10, 10⟩⟩, ()⟩, ⟨0, 0⟩⟩).1 :=
  ⟨by decide,
    (doLayout_within_constraints (staticLeaf fun k => k.min) {} () () ⟨0, 0⟩ (Insets.all 5) 0 (some 50) none
      ⟨10, 10⟩ ⟨⟨0, 0⟩, ⟨Constraints.unbound, 100⟩⟩ (by decide)).1 (by decide) (by decide) (by decide),
    (doLayout_within_constraints (staticLeaf fun k => k.min) {} () () ⟨0, 0⟩ (Insets.all 5) 0 (some 50) none
      ⟨10, 10⟩ ⟨⟨0, 0⟩, ⟨Constraints.unbound, 100⟩⟩ (by decide)).2.1 (by decide),
    (doLayout_within_constraints (staticLeaf fun k => k.min) {} () () ⟨0, 0⟩ (Insets.all 5) 0 (some 50) none
      ⟨10, 10⟩ ⟨⟨0, 0⟩, ⟨Constraints.unbound, 100⟩⟩ (by decide)).2.2.1 (by decide),
    (doLayout_within_constraints (staticLeaf fun k => k.min) {} () () ⟨0, 0⟩ (Insets.all 5) 0 (some 50) none
      ⟨10, 10⟩ ⟨⟨0, 0⟩, ⟨Constraints.unbound, 100⟩⟩ (by decide)).2.2.2.1 (by decide),
    (doLayout_within_constraints (staticLeaf fun k => k.min) {} () () ⟨0, 0⟩ (Insets.all 5) 0 (some 50) none
      ⟨10, 10⟩ ⟨⟨0, 0⟩, ⟨Constraints.unbound, 100⟩⟩ (by decide)).2.2.2.2.1 (by decide),
    (doLayout_within_constraints (staticLeaf fun k => k.min) {} () () ⟨0, 0⟩ (Insets.all 5) 0 (some 50) none
      ⟨10, 10⟩ ⟨⟨0, 0⟩, ⟨Constraints.unbound, 100⟩⟩ (by decide)).2.2.2.2.2.1 (by decide),
    (doLayout_within_constraints (staticLeaf fun k => k.min) {} () () ⟨0, 0⟩ (Insets.all 5) 0 (some 50) none
      ⟨10, 10⟩ ⟨⟨0, 0⟩, ⟨Constraints.unbound, 100⟩⟩ (by decide)).2.2.2.2.2.2 (by decide) (by decide) (by decide)⟩

end rmlib
